import Mathlib

/-!
Verification of the Parametric Aircraft Geometry Kernel of the
"From-Sketch-to-Sky" repository (src/script.js).

The development shallowly embeds the relevant JavaScript functions:

* `validateParams` (parameter normalization with warnings),
* its local helper `parseSizeFromText`, the inline NACA-code regex, and
  `guessPartTypeFromText`,
* `runSafetyChecks` (safety envelope checker),
* the geometry dispatch of `generateAircraftPart`, the per-vertex
  taper/sweep shear of `createWing`, `makeNaca4Shape` / `isValidNaca4`,
* `updateAeroMetricsFromParams` and the inverse edit formulas of
  `attachAeroMetricHandlers`.

Modelling decisions (JavaScript to Lean):

* JS numbers are modelled by `ℚ` where the code only performs rational
  arithmetic and comparisons, and by `ℝ` where the code calls
  `Math.sqrt` / `Math.tan` / `Math.sin` / `Math.cos` / `Math.atan`.
  Binary floating-point rounding is not modelled.
* A field of the raw parameter record can hold a finite number, `null`,
  `undefined`, or a non-numeric value whose `Number(...)` coercion is
  `NaN`; these four cases are `JVal.num`, `JVal.null`, `JVal.undef` and
  `JVal.nan`.  Numeric strings are identified with their numeric value.
* Arithmetic inside `runSafetyChecks` can produce `NaN` or `Infinity`
  (e.g. division by zero); `JNum` models the JS number line with the
  two infinities and `NaN` (negative zero is not modelled).
* `String.prototype.toLowerCase` is modelled ASCII-only (`jsLower`),
  which is faithful on every string the kernel compares against.
* The two regular expressions used by `validateParams` are embedded as
  explicit left-to-right scanners with the same backtracking behaviour
  (`parseSizeFromText`, `nacaCodeFromText`).
* Warning messages are the exact string literals of the source; the
  findings of `runSafetyChecks` are modelled as tagged values
  (`Finding`) carrying the interpolated number, since only the string
  formatting (`toFixed`) is abstracted away.
-/

/-- A JavaScript field value as seen by `validateParams`: a finite number,
`null`, `undefined` (also: an absent property), or a value whose numeric
coercion is `NaN` (e.g. a non-numeric string). -/
inductive JVal where
  | num (x : ℚ)
  | null
  | undef
  | nan
deriving DecidableEq, Repr

/-- Models the helper `isNum = (v) => Number.isFinite(Number(v))` of
`validateParams`.  Note `Number(null) = 0` is finite, so `null` passes. -/
def JVal.isNum : JVal → Bool
  | .num _ => true
  | .null => true
  | .undef => false
  | .nan => false

/-- JS `Number(v)` at the call sites where the result is known finite
(guarded by `isNum`); `null` coerces to `0`. -/
def JVal.toQ : JVal → ℚ
  | .num x => x
  | _ => 0

/-- JS comparison `v <= 0` (`null` coerces to `0`, comparisons against
`NaN` are false). -/
def JVal.le0 : JVal → Bool
  | .num x => decide (x ≤ 0)
  | .null => true
  | .undef => false
  | .nan => false

/-- JS comparison `v > 100` used for the wing span clamp. -/
def JVal.gt100 : JVal → Bool
  | .num x => decide (100 < x)
  | .null => false
  | .undef => false
  | .nan => false

/-- Models `!isNum(params.k) || params.k <= 0`, the "missing or
non-positive" test used throughout `validateParams`. -/
def missingOrNonpos (v : JVal) : Bool := !v.isNum || v.le0

/-- Models `params.sweep = Math.max(0, Math.min(60, params.sweep))`.
`Math.min(60, null)` is `0`; `NaN` propagates. -/
def jsSweepClamp : JVal → JVal
  | .num x => .num (max 0 (min 60 x))
  | .null => .num 0
  | .undef => .nan
  | .nan => .nan

/-- JS truthiness of a field value (`0`, `NaN`, `null`, `undefined` are
falsy). -/
def jsTruthy : JVal → Bool
  | .num x => decide (x ≠ 0)
  | _ => false

/-- The JS number line for the arithmetic inside `runSafetyChecks`:
finite values, the two infinities, and `NaN`. -/
inductive JNum where
  | fin (q : ℚ)
  | pinf
  | ninf
  | nan
deriving DecidableEq, Repr

/-- JS `ToNumber` of a field value (`null` is `0`, `undefined` is `NaN`). -/
def JVal.toJNum : JVal → JNum
  | .num x => .fin x
  | .null => .fin 0
  | .undef => .nan
  | .nan => .nan

/-- JS addition on the extended number line. -/
def JNum.add : JNum → JNum → JNum
  | .nan, _ => .nan
  | _, .nan => .nan
  | .fin x, .fin y => .fin (x + y)
  | .pinf, .ninf => .nan
  | .ninf, .pinf => .nan
  | .pinf, _ => .pinf
  | _, .pinf => .pinf
  | .ninf, _ => .ninf
  | _, .ninf => .ninf

/-- JS multiplication on the extended number line. -/
def JNum.mul : JNum → JNum → JNum
  | .nan, _ => .nan
  | _, .nan => .nan
  | .fin x, .fin y => .fin (x * y)
  | .pinf, .pinf => .pinf
  | .pinf, .ninf => .ninf
  | .ninf, .pinf => .ninf
  | .ninf, .ninf => .pinf
  | .pinf, .fin y => if y = 0 then .nan else if 0 < y then .pinf else .ninf
  | .fin x, .pinf => if x = 0 then .nan else if 0 < x then .pinf else .ninf
  | .ninf, .fin y => if y = 0 then .nan else if 0 < y then .ninf else .pinf
  | .fin x, .ninf => if x = 0 then .nan else if 0 < x then .ninf else .pinf

/-- JS division on the extended number line (division by `+0` gives a
signed infinity, `0/0` gives `NaN`). -/
def JNum.div : JNum → JNum → JNum
  | .nan, _ => .nan
  | _, .nan => .nan
  | .fin x, .fin y =>
      if y = 0 then (if x = 0 then .nan else if 0 < x then .pinf else .ninf)
      else .fin (x / y)
  | .fin _, .pinf => .fin 0
  | .fin _, .ninf => .fin 0
  | .pinf, .fin y => if 0 ≤ y then .pinf else .ninf
  | .ninf, .fin y => if 0 ≤ y then .ninf else .pinf
  | .pinf, _ => .nan
  | .ninf, _ => .nan

/-- JS strict comparison `a > b` (false whenever either side is `NaN`). -/
def JNum.gtb : JNum → JNum → Bool
  | .nan, _ => false
  | _, .nan => false
  | .fin x, .fin y => decide (y < x)
  | .pinf, .pinf => false
  | .pinf, _ => true
  | _, .pinf => false
  | .ninf, _ => false
  | .fin _, .ninf => true

/-- JS strict comparison `a < b`. -/
def JNum.ltb (a b : JNum) : Bool := JNum.gtb b a

/-- JS comparison `a <= b` (false on `NaN`). -/
def JNum.leb : JNum → JNum → Bool
  | .nan, _ => false
  | _, .nan => false
  | .fin x, .fin y => decide (x ≤ y)
  | .pinf, .pinf => true
  | .pinf, _ => false
  | _, .pinf => true
  | .ninf, _ => true
  | .fin _, .ninf => false

/-- Field-against-constant comparison `params.k > c`. -/
def jsGtQ (v : JVal) (c : ℚ) : Bool := JNum.gtb v.toJNum (.fin c)

/-- Field-against-constant comparison `params.k < c`. -/
def jsLtQ (v : JVal) (c : ℚ) : Bool := JNum.ltb v.toJNum (.fin c)

/-- Field-against-constant comparison `params.k <= c`. -/
def jsLeQ (v : JVal) (c : ℚ) : Bool := JNum.leb v.toJNum (.fin c)

/-- ASCII model of `Char`-wise `toLowerCase` (the JS method restricted to
the ASCII range, which covers all keywords the kernel matches on). -/
def jsCharLower (c : Char) : Char :=
  if 65 ≤ c.toNat ∧ c.toNat ≤ 90 then Char.ofNat (c.toNat + 32) else c

/-- ASCII model of `String.prototype.toLowerCase`. -/
def jsLower (s : String) : String := String.mk (s.toList.map jsCharLower)

/-- Helper for `String.prototype.includes`: does `needle` occur as a
contiguous sublist of `hay`? -/
def listHasSub (needle : List Char) : List Char → Bool
  | [] => needle.isEmpty
  | c :: t => needle.isPrefixOf (c :: t) || listHasSub needle t

/-- Models `s.includes(sub)`. -/
def strContains (s sub : String) : Bool := listHasSub sub.toList s.toList

/-- Whitespace class of the embedded regexes (JS `\s`, common cases). -/
def isSpaceChar (c : Char) : Bool := c = ' ' || c = '\t' || c = '\n' || c = '\r'

/-- Word character class for the JS word boundary `\b` (`[A-Za-z0-9_]`). -/
def isWordChar (c : Char) : Bool := c.isAlpha || c.isDigit || c = '_'

/-- Integer value of a digit run, as `parseFloat` reads it. -/
def digitsVal (ds : List Char) : ℚ :=
  ds.foldl (fun a c => a * 10 + ((c.toNat - 48 : ℕ) : ℚ)) 0

/-- Fractional value of the digit run after the decimal point. -/
def fracVal (fs : List Char) : ℚ :=
  fs.foldr (fun c a => (a + ((c.toNat - 48 : ℕ) : ℚ)) / 10) 0

/-- The `\b` test after a unit alternative: end of input or a non-word
character. -/
def unitBoundary : List Char → Bool
  | [] => true
  | c :: _ => !isWordChar c

/-- Try one unit alternative at the current position: the literal must be
a prefix and must end at a word boundary. -/
def tryUnit (u : List Char) (l : List Char) : Bool :=
  u.isPrefixOf l && unitBoundary (l.drop u.length)

/-- The alternation `(m|meter|meters|ft|feet|foot)` of the local
`parseSizeFromText` regex inside `validateParams`, tried in source order;
returns the meters-per-unit factor (`0.3048` for the foot spellings). -/
def matchUnit (l : List Char) : Option ℚ :=
  if tryUnit "m".toList l then some 1
  else if tryUnit "meter".toList l then some 1
  else if tryUnit "meters".toList l then some 1
  else if tryUnit "ft".toList l then some 0.3048
  else if tryUnit "feet".toList l then some 0.3048
  else if tryUnit "foot".toList l then some 0.3048
  else none

/-- Try the whole pattern `(\d+(?:\.\d+)?)\s*(m|meter|meters|ft|feet|foot)\b`
anchored at the current position, with the regex backtracking order
(fractional part first, then without it). -/
def trySizeAt (l : List Char) : Option ℚ :=
  let ds := l.takeWhile Char.isDigit
  if ds.isEmpty then none
  else
    let r1 := l.drop ds.length
    let noFrac : Option ℚ :=
      (matchUnit (r1.dropWhile isSpaceChar)).map (fun f => digitsVal ds * f)
    match r1 with
    | '.' :: r2 =>
      let fs := r2.takeWhile Char.isDigit
      if fs.isEmpty then noFrac
      else
        match matchUnit ((r2.drop fs.length).dropWhile isSpaceChar) with
        | some f => some ((digitsVal ds + fracVal fs) * f)
        | none => noFrac
    | _ => noFrac

/-- Leftmost-match scan of the size pattern. -/
def scanSize : List Char → Option ℚ
  | [] => none
  | c :: rest =>
    match trySizeAt (c :: rest) with
    | some v => some v
    | none => scanSize rest

/-- Embedding of the local helper `parseSizeFromText` of `validateParams`
(it is applied to the already lowercased description text). -/
def parseSizeFromText (t : String) : Option ℚ := scanSize t.toList

/-- Try the pattern `naca\s*[-\s]*(\d{4})` (flag `i`) anchored at the
current position. -/
def tryNacaAt (l : List Char) : Option String :=
  if (l.take 4).map jsCharLower = ['n', 'a', 'c', 'a'] then
    let r := (l.drop 4).dropWhile (fun c => isSpaceChar c || c = '-')
    let ds := r.take 4
    if ds.length = 4 && ds.all Char.isDigit then some (String.mk ds) else none
  else none

/-- Leftmost-match scan of the NACA-code pattern. -/
def scanNaca : List Char → Option String
  | [] => none
  | c :: rest =>
    match tryNacaAt (c :: rest) with
    | some s => some s
    | none => scanNaca rest

/-- Embedding of `userInput.match(/naca\s*[-\s]*(\d{4})/i)` inside
`validateParams` (applied to the original, non-lowercased input). -/
def nacaCodeFromText (userInput : String) : Option String := scanNaca userInput.toList

/-- Embedding of `guessPartTypeFromText`: keyword families scanned in the
priority order wing, fuselage, stabilizer; first match wins. -/
def guessPartTypeFromText (userInput : String) : Option String :=
  let text := jsLower userInput
  if strContains text "wing" || strContains text "airfoil" ||
     strContains text "delta" || strContains text "swept" then some "wing"
  else if strContains text "fuselage" || strContains text "body" ||
     strContains text "tube" then some "fuselage"
  else if strContains text "stabilizer" || strContains text "tail" ||
     strContains text "fin" || strContains text "rudder" then some "stabilizer"
  else none

/-- The raw/validated parameter record.  `type` is `none` when the JS
value is absent or not a string; `naca` is `none` when absent, `null`,
or not a string.  Unlisted JS properties (`_raw`, `_fromPreset`) play no
role in the verified code paths. -/
structure JRecord where
  type : Option String := none
  span : JVal := .undef
  length : JVal := .undef
  diameter : JVal := .undef
  chord : JVal := .undef
  sweep : JVal := .undef
  rootChord : JVal := .undef
  tipChord : JVal := .undef
  naca : Option String := none
deriving DecidableEq, Repr

/-- Warning emitted when the type is inferred from the text. -/
def msgInferred (g : String) : String :=
  "Type not detected from AI. Using inferred type: " ++ g ++ "."

/-- The single fatal error message of `validateParams`. -/
def msgMissingType : String :=
  "Invalid or missing part type. Please describe a wing, fuselage, or stabilizer."

/-- Warning literal of the wing span text-mapping. -/
def msgMapWingSpan : String := "Mapped provided size to wing span."

/-- Warning literal of the root-chord default. -/
def msgDefRootChord : String := "Using default root chord."

/-- Warning literal of the tip-chord default. -/
def msgDefTipChord : String := "Using default tip chord."

/-- Warning literal of the wing-span default. -/
def msgDefWingSpan : String := "Using default wing span."

/-- Warning literal of the wing-span clamp. -/
def msgSpanClamped : String := "Span too large (>100m). Clamped."

/-- Warning literal of the non-numeric sweep default. -/
def msgSweepNaN : String := "Sweep must be a number. Using 0°."

/-- Warning literal of the fuselage length text-mapping. -/
def msgMapFusLength : String := "Mapped provided size to fuselage length."

/-- Warning literal of the fuselage-length default. -/
def msgDefFusLength : String := "Using default fuselage length."

/-- Warning literal of the fuselage-diameter default. -/
def msgDefFusDiameter : String := "Using default fuselage diameter."

/-- Warning literal of the stabilizer span text-mapping. -/
def msgMapStabSpan : String := "Mapped provided size to stabilizer span."

/-- Warning literal of the stabilizer-span default. -/
def msgDefStabSpan : String := "Using default stabilizer span."

/-- One pass of the coercion loop
`params[k] = Number.isFinite(n) ? n : null` (values that are `null` or
`undefined` were skipped by the loop; `NaN`-coercing values become
`null`). -/
def coerceOne : JVal → JVal
  | .nan => .null
  | v => v

/-- The coercion loop over the keys `span, length, diameter, chord,
sweep` (note: `rootChord` and `tipChord` are not in the list). -/
def coerceKeys (p : JRecord) : JRecord :=
  { p with span := coerceOne p.span, length := coerceOne p.length,
           diameter := coerceOne p.diameter, chord := coerceOne p.chord,
           sweep := coerceOne p.sweep }

/-- JS falsity of the `naca` property (absent, `null`, or the empty
string). -/
def nacaFalsy : Option String → Bool
  | none => true
  | some s => s = ""

/-- The 4-digit cleanup of the wing branch: strip non-digits, keep the
result iff it is exactly 4 digits, else reset to `null`. -/
def nacaClean : Option String → Option String
  | some s =>
    let ds := s.toList.filter Char.isDigit
    if ds.length = 4 then some (String.mk ds) else none
  | none => none

/-- Type resolution: a non-empty string `type` is kept verbatim,
otherwise the type is inferred from the text (with a warning), and
`none` means the `MissingType` fatal error. -/
def resolveType (t : Option String) (userInput : String) :
    Option (String × List String) :=
  match t with
  | some s =>
    if s = "" then (guessPartTypeFromText userInput).map fun g => (g, [msgInferred g])
    else some (s, [])
  | none => (guessPartTypeFromText userInput).map fun g => (g, [msgInferred g])

/-- Wing branch, step 1: map a size found in the text to a missing or
non-positive span. -/
def wingStep1 (size : Option ℚ) (p : JRecord) : JRecord × List String :=
  match size with
  | some v =>
    if missingOrNonpos p.span && decide (0 < v) then
      ({ p with span := .num v }, [msgMapWingSpan])
    else (p, [])
  | none => (p, [])

/-- Wing branch: accept a single `chord` for a missing `rootChord`
and/or `tipChord` (`hasRoot`/`hasTip` are read before any assignment). -/
def applyChordFill (p : JRecord) : JRecord :=
  let hasRoot := p.rootChord.isNum
  let hasTip := p.tipChord.isNum
  let p1 := if !hasRoot && p.chord.isNum then { p with rootChord := .num p.chord.toQ } else p
  if !hasTip && p1.chord.isNum then { p1 with tipChord := .num p1.chord.toQ } else p1

/-- Wing branch, root-chord default (`rootChord = 2` with a warning when
missing or non-positive). -/
def applyRootDefault (p : JRecord) : JRecord × List String :=
  if missingOrNonpos p.rootChord then ({ p with rootChord := .num 2 }, [msgDefRootChord])
  else (p, [])

/-- Wing branch, tip-chord default (`tipChord = rootChord * 0.5` with a
warning when missing or non-positive). -/
def applyTipDefault (p : JRecord) : JRecord × List String :=
  if missingOrNonpos p.tipChord then
    ({ p with tipChord := .num (p.rootChord.toQ * 0.5) }, [msgDefTipChord])
  else (p, [])

/-- Wing branch, step 2: chord reconciliation followed by the root and
tip chord defaults, in source order. -/
def wingStep2 (p : JRecord) : JRecord × List String :=
  let p2 := applyChordFill p
  let r3 := applyRootDefault p2
  let r4 := applyTipDefault r3.1
  (r4.1, r3.2 ++ r4.2)

/-- Wing branch, step 3: span default and the `> 100` clamp. -/
def wingStep3 (p : JRecord) : JRecord × List String :=
  let dS := missingOrNonpos p.span
  let p1 := if dS then { p with span := .num 10 } else p
  let cl := p1.span.gt100
  let p2 := if cl then { p1 with span := .num 100 } else p1
  (p2, (if dS then [msgDefWingSpan] else []) ++ (if cl then [msgSpanClamped] else []))

/-- Wing branch, step 4: non-numeric sweep default (with warning) and
the silent `[0, 60]` clamp. -/
def wingStep4 (p : JRecord) : JRecord × List String :=
  let nn := !p.sweep.isNum
  let p1 := if nn then { p with sweep := .num 0 } else p
  ({ p1 with sweep := jsSweepClamp p1.sweep }, if nn then [msgSweepNaN] else [])

/-- Wing branch, step 5: NACA cleanup and deletion of the keys that are
irrelevant for a wing. -/
def wingStep5 (p : JRecord) : JRecord :=
  { p with naca := nacaClean p.naca, length := .undef, diameter := .undef,
           chord := .undef }

/-- The wing branch of `validateParams` (warnings in push order). -/
def wingBranch (size : Option ℚ) (p : JRecord) : JRecord × List String :=
  let r1 := wingStep1 size p
  let r2 := wingStep2 r1.1
  let r3 := wingStep3 r2.1
  let r4 := wingStep4 r3.1
  (wingStep5 r4.1, r1.2 ++ (r2.2 ++ (r3.2 ++ r4.2)))

/-- Fuselage branch, step 1: map a size found in the text to a missing
or non-positive length. -/
def fusStep1 (size : Option ℚ) (p : JRecord) : JRecord × List String :=
  match size with
  | some v =>
    if missingOrNonpos p.length && decide (0 < v) then
      ({ p with length := .num v }, [msgMapFusLength])
    else (p, [])
  | none => (p, [])

/-- Fuselage branch, length default. -/
def applyFusLengthDefault (p : JRecord) : JRecord × List String :=
  if missingOrNonpos p.length then ({ p with length := .num 8 }, [msgDefFusLength])
  else (p, [])

/-- Fuselage branch, diameter default. -/
def applyFusDiamDefault (p : JRecord) : JRecord × List String :=
  if missingOrNonpos p.diameter then ({ p with diameter := .num 2 }, [msgDefFusDiameter])
  else (p, [])

/-- Fuselage branch, step 2: length and diameter defaults, in source
order. -/
def fusStep2 (p : JRecord) : JRecord × List String :=
  let r1 := applyFusLengthDefault p
  let r2 := applyFusDiamDefault r1.1
  (r2.1, r1.2 ++ r2.2)

/-- Fuselage branch, step 3: delete `chord`, `sweep`, `span`. -/
def fusStep3 (p : JRecord) : JRecord :=
  { p with chord := .undef, sweep := .undef, span := .undef }

/-- The fuselage branch of `validateParams`. -/
def fusBranch (size : Option ℚ) (p : JRecord) : JRecord × List String :=
  let r1 := fusStep1 size p
  let r2 := fusStep2 r1.1
  (fusStep3 r2.1, r1.2 ++ r2.2)

/-- Stabilizer branch, step 1: map a size found in the text to a missing
or non-positive span. -/
def stabStep1 (size : Option ℚ) (p : JRecord) : JRecord × List String :=
  match size with
  | some v =>
    if missingOrNonpos p.span && decide (0 < v) then
      ({ p with span := .num v }, [msgMapStabSpan])
    else (p, [])
  | none => (p, [])

/-- Stabilizer branch, step 2: span default. -/
def stabStep2 (p : JRecord) : JRecord × List String :=
  let dS := missingOrNonpos p.span
  (if dS then ({ p with span := .num 4 }, [msgDefStabSpan]) else (p, []))

/-- Stabilizer branch, step 3: silent sweep default, sweep clamp, and
deletion of the irrelevant keys.  Note the non-numeric sweep default
emits no warning in this branch. -/
def stabStep3 (p : JRecord) : JRecord :=
  let p1 := if !p.sweep.isNum then { p with sweep := .num 0 } else p
  { p1 with sweep := jsSweepClamp p1.sweep, length := .undef,
            diameter := .undef, chord := .undef }

/-- The stabilizer branch of `validateParams` (also the fallback branch
for every type string that contains neither "wing" nor "fuselage"). -/
def stabBranch (size : Option ℚ) (p : JRecord) : JRecord × List String :=
  let r1 := stabStep1 size p
  let r2 := stabStep2 r1.1
  (stabStep3 r2.1, r1.2 ++ r2.2)

/-- Embedding of `validateParams(raw, userInput)`: either the
`MissingType` error, or the normalized record plus the warning list. -/
def validateParams (raw : JRecord) (userInput : String) :
    Except String (JRecord × List String) :=
  match resolveType raw.type userInput with
  | none => .error msgMissingType
  | some (t0, w0) =>
    let ty := jsLower t0
    let naca1 :=
      if nacaFalsy raw.naca && (nacaCodeFromText userInput).isSome then
        nacaCodeFromText userInput
      else raw.naca
    let size := parseSizeFromText (jsLower userInput)
    let p0 := coerceKeys { raw with type := some ty, naca := naca1 }
    let res :=
      if strContains ty "wing" then wingBranch size p0
      else if strContains ty "fuselage" then fusBranch size p0
      else stabBranch size p0
    .ok (res.1, w0 ++ res.2)

/-- The only field a second `validateParams` run can change: a `null`
NACA code is re-filled from a code present in the text. -/
def renacaFill (n : Option String) (userInput : String) : Option String :=
  if nacaFalsy n && (nacaCodeFromText userInput).isSome then
    nacaCodeFromText userInput
  else n

/-- A safety finding, tagged by its push site in `runSafetyChecks`; the
interpolated number of the message (`toFixed` formatting aside) is
carried as a payload. -/
inductive Finding where
  | spanOverMax
  | spanUnderMin
  | rootChordUnderMin
  | sweepOverMax
  | rootChordLarge
  | sweepSupersonic
  | highAspect (ar : JNum)
  | lowAspect (ar : JNum)
  | taperExtreme (lam : JNum)
  | taperInverse (lam : JNum)
  | fusLengthOverMax
  | fusLengthShort
  | fusDiamLarge
  | fusDiamSmall
  | fusSlender (r : JNum)
  | fusStubby (r : JNum)
  | stabSpanLarge
  | stabSpanSmall
  | stabSweepHigh
deriving DecidableEq, Repr

/-- Embedding of `runSafetyChecks(params)`: the pair
`(issues, warnings)`, each in push order.  The input is `none` for a
`null`/`undefined` record; a record whose `type` is absent or the empty
string short-circuits to the clean verdict. -/
def runSafetyChecks (params : Option JRecord) : List Finding × List Finding :=
  match params with
  | none => ([], [])
  | some p =>
    match p.type with
    | none => ([], [])
    | some t =>
      if t = "" then ([], [])
      else
        let ty := jsLower t
        if strContains ty "wing" then
          let issues :=
            (if jsGtQ p.span 80 then [Finding.spanOverMax] else []) ++
            (if jsLtQ p.span 2 then [Finding.spanUnderMin] else []) ++
            (if jsLtQ p.rootChord 0.5 then [Finding.rootChordUnderMin] else []) ++
            (if jsGtQ p.sweep 60 then [Finding.sweepOverMax] else [])
          let arW :=
            if jsTruthy p.rootChord && jsTruthy p.tipChord then
              let area := JNum.div (JNum.mul p.span.toJNum
                (JNum.add p.rootChord.toJNum p.tipChord.toJNum)) (.fin 2)
              let ar := JNum.div (JNum.mul p.span.toJNum p.span.toJNum) area
              (if JNum.gtb ar (.fin 15) then [Finding.highAspect ar] else []) ++
              (if JNum.ltb ar (.fin 3) then [Finding.lowAspect ar] else [])
            else []
          let lamW :=
            if jsTruthy p.rootChord && jsTruthy p.tipChord then
              let lam := JNum.div p.tipChord.toJNum p.rootChord.toJNum
              (if JNum.ltb lam (.fin 0.2) then [Finding.taperExtreme lam] else []) ++
              (if JNum.gtb lam (.fin 1) then [Finding.taperInverse lam] else [])
            else []
          let warns :=
            (if jsGtQ p.rootChord 15 then [Finding.rootChordLarge] else []) ++
            ((if jsGtQ p.sweep 50 && jsLeQ p.sweep 60 then [Finding.sweepSupersonic] else []) ++
             (arW ++ lamW))
          (issues, warns)
        else if strContains ty "fuselage" then
          let issues := if jsGtQ p.length 80 then [Finding.fusLengthOverMax] else []
          let ratioW :=
            if jsTruthy p.length && jsTruthy p.diameter then
              let r := JNum.div p.length.toJNum p.diameter.toJNum
              (if JNum.gtb r (.fin 20) then [Finding.fusSlender r] else []) ++
              (if JNum.ltb r (.fin 5) then [Finding.fusStubby r] else [])
            else []
          let warns :=
            (if jsLtQ p.length 5 then [Finding.fusLengthShort] else []) ++
            ((if jsGtQ p.diameter 8 then [Finding.fusDiamLarge] else []) ++
             ((if jsLtQ p.diameter 1.5 then [Finding.fusDiamSmall] else []) ++ ratioW))
          (issues, warns)
        else if strContains ty "stabilizer" then
          let warns :=
            (if jsGtQ p.span 15 then [Finding.stabSpanLarge] else []) ++
            ((if jsLtQ p.span 2 then [Finding.stabSpanSmall] else []) ++
             (if jsGtQ p.sweep 50 then [Finding.stabSweepHigh] else []))
          ([], warns)
        else ([], [])

/-- The geometry value produced by `generateAircraftPart` before it is
handed to three.js: which constructor ran and with which (coerced)
arguments. -/
inductive PartGeometry where
  | wing (span rootChord tipChord sweep : ℚ) (naca : Option String)
  | fuselage (length diameter : ℚ)
  | stab (span : ℚ)
  | box (w h d : ℚ)
deriving DecidableEq, Repr

/-- Models `coerce(v, fallback) = Number.isFinite(Number(v)) ? Number(v)
: fallback` (so `null` coerces to `0`, not to the fallback). -/
def jsCoerce (v : JVal) (fallback : ℚ) : ℚ :=
  match v with
  | .num x => x
  | .null => 0
  | .undef => fallback
  | .nan => fallback

/-- Models `(params.type || 'unknown')`. -/
def partTypeOf (p : JRecord) : String :=
  match p.type with
  | some t => if t = "" then "unknown" else t
  | none => "unknown"

/-- Embedding of the geometry dispatch of `generateAircraftPart`
(`createWing` / `createFuselage` / `createStabilizer` / default box). -/
def generateGeometry (p : JRecord) : PartGeometry :=
  let partType := jsLower (partTypeOf p)
  if strContains partType "wing" then
    .wing (jsCoerce p.span 10) (jsCoerce p.rootChord 2) (jsCoerce p.tipChord 1)
      (jsCoerce p.sweep 0) p.naca
  else if strContains partType "fuselage" then
    .fuselage (jsCoerce p.length 8) (jsCoerce p.diameter 2)
  else if strContains partType "stabilizer" then
    .stab (jsCoerce p.span 4)
  else
    .box 3 1 6

/-- The `tiny = 1e-4` floor of `createWing`. -/
def tinyChord : ℝ := 1e-4

/-- Embedding of the per-vertex taper+sweep shear loop of `createWing`:
input `(x, y, z)` is a post-extrusion vertex (profile coordinates
`x`, `y` and span coordinate `z ∈ [-b/2, b/2]`), output is the sheared
vertex.  `cr`, `ct`, `b`, `sweepD` are the coerced wing parameters. -/
noncomputable def wingShear (b cr ct sweepD : ℝ) (v : ℝ × ℝ × ℝ) : ℝ × ℝ × ℝ :=
  let safeCr := max cr tinyChord
  let safeCt := max ct tinyChord
  let tanL := Real.tan (sweepD * Real.pi / 180)
  let u := (v.2.2 + b / 2) / b
  let c := safeCr + (safeCt - safeCr) * u
  let xLE := (v.2.2 + b / 2) * tanL
  (v.1 * c + xLE, v.2.1 * c, v.2.2)

/-- The shear transform exactly as the specification states it
(refinement reference): local chord interpolates the *given* root/tip
chords with no `1e-4` floor. -/
noncomputable def wingShearClaimed (b cr ct sweepD : ℝ) (v : ℝ × ℝ × ℝ) : ℝ × ℝ × ℝ :=
  let tanL := Real.tan (sweepD * Real.pi / 180)
  let u := (v.2.2 + b / 2) / b
  let c := cr + (ct - cr) * u
  let xLE := (v.2.2 + b / 2) * tanL
  (v.1 * c + xLE, v.2.1 * c, v.2.2)

/-- Embedding of `updateAeroMetricsFromParams`: `(AR, λ, S)` from
`(span, rootChord, tipChord)` (the 3-decimal display rounding `fix` is
UI formatting and is not part of the computation). -/
noncomputable def aeroMetrics (b cr ct : ℝ) : ℝ × ℝ × ℝ :=
  let lam := ct / cr
  let S := (b * (cr + ct)) / 2
  let ar := b * b / S
  (ar, lam, S)

/-- The AR-edit formula of `attachAeroMetricHandlers`:
`span = Math.sqrt(AR * S)`. -/
noncomputable def editSpanFromAR (ar S : ℝ) : ℝ := Real.sqrt (ar * S)

/-- The λ-edit formula: `tipChord = rootChord * λ`. -/
noncomputable def editTipFromLambda (cr lam : ℝ) : ℝ := cr * lam

/-- The S-edit formula: `rootChord = (2 * S / b) / (1 + λ)`. -/
noncomputable def editRootFromArea (S b lam : ℝ) : ℝ := (2 * S / b) / (1 + lam)

/-- Embedding of `isValidNaca4`. -/
def isValidNaca4 (s : String) : Bool :=
  s.toList.length = 4 && s.toList.all Char.isDigit

/-- `parseInt(naca[i], 10)` for a digit character of the code. -/
def nacaDigit (s : String) (i : ℕ) : ℕ := (s.toList.getD i '0').toNat - 48

/-- Max camber `m = a / 100` of the code. -/
noncomputable def nacaM (s : String) : ℝ := (nacaDigit s 0 : ℝ) / 100

/-- Camber position `p = b / 10` of the code. -/
noncomputable def nacaP (s : String) : ℝ := (nacaDigit s 1 : ℝ) / 10

/-- Thickness `t = (10 c + d) / 100` of the code. -/
noncomputable def nacaT (s : String) : ℝ :=
  ((10 * nacaDigit s 2 + nacaDigit s 3 : ℕ) : ℝ) / 100

/-- The clamped cosine-spaced station `x` of sample `i` of `N`:
`Math.min(1, Math.max(0, 0.5 * (1 - Math.cos(Math.PI * i / N))))`. -/
noncomputable def nacaStation (N i : ℕ) : ℝ :=
  min 1 (max 0 (0.5 * (1 - Real.cos (Real.pi * i / N))))

/-- The NACA 4-digit half-thickness polynomial `yt` at station `x`. -/
noncomputable def nacaYt (t x : ℝ) : ℝ :=
  5 * t * (0.2969 * Real.sqrt x - 0.1260 * x - 0.3516 * (x * x)
    + 0.2843 * (x * x * x) - 0.1036 * (x * x * x * x))

open Classical in
/-- The two-piece camber line `(yc, dyc)`; camber degenerates to zero
when `m = 0` or `p = 0` (JS `m !== 0 && p !== 0`). -/
noncomputable def nacaCamber (m p x : ℝ) : ℝ × ℝ :=
  if m ≠ 0 ∧ p ≠ 0 then
    if x < p then
      (m / (p * p) * (2 * p * x - x * x), 2 * m / (p * p) * (p - x))
    else
      (m / ((1 - p) * (1 - p)) * ((1 - 2 * p) + 2 * p * x - x * x),
       2 * m / ((1 - p) * (1 - p)) * (p - x))
  else (0, 0)

/-- Upper-surface abscissa at station `x`, scaled by the chord:
`xu = (x - yt sin θ) * chord` with `θ = atan dyc`. -/
noncomputable def nacaXU (s : String) (chord x : ℝ) : ℝ :=
  (x - nacaYt (nacaT s) x * Real.sin (Real.arctan (nacaCamber (nacaM s) (nacaP s) x).2)) * chord

/-- Upper-surface ordinate at station `x` before the endpoint overrides. -/
noncomputable def nacaYUraw (s : String) (chord x : ℝ) : ℝ :=
  ((nacaCamber (nacaM s) (nacaP s) x).1
    + nacaYt (nacaT s) x * Real.cos (Real.arctan (nacaCamber (nacaM s) (nacaP s) x).2)) * chord

/-- Lower-surface abscissa at station `x`, scaled by the chord. -/
noncomputable def nacaXL (s : String) (chord x : ℝ) : ℝ :=
  (x + nacaYt (nacaT s) x * Real.sin (Real.arctan (nacaCamber (nacaM s) (nacaP s) x).2)) * chord

/-- Lower-surface ordinate at station `x` before the endpoint overrides. -/
noncomputable def nacaYLraw (s : String) (chord x : ℝ) : ℝ :=
  ((nacaCamber (nacaM s) (nacaP s) x).1
    - nacaYt (nacaT s) x * Real.cos (Real.arctan (nacaCamber (nacaM s) (nacaP s) x).2)) * chord

/-- The trailing-edge half-opening `eps = 1e-5` (an absolute value, not
scaled by the chord). -/
noncomputable def nacaEps : ℝ := 1e-5

/-- Upper-surface ordinate array after the endpoint overrides
(`yU[0] = 0` is assigned before `yU[last] = +eps`, so the latter wins
when `N = 0`). -/
noncomputable def nacaYU (s : String) (chord : ℝ) (N i : ℕ) : ℝ :=
  if i = N then nacaEps
  else if i = 0 then 0
  else nacaYUraw s chord (nacaStation N i)

/-- Lower-surface ordinate array after the endpoint overrides. -/
noncomputable def nacaYL (s : String) (chord : ℝ) (N i : ℕ) : ℝ :=
  if i = N then -nacaEps
  else if i = 0 then 0
  else nacaYLraw s chord (nacaStation N i)

/-- The assembled loop of `makeNaca4Shape` before the winding check:
upper surface from leading edge to trailing edge (indices `0..N`), then
the lower surface walked back from index `N-1` down to `1` — the lower
trailing-edge and leading-edge points are skipped. -/
noncomputable def nacaPtsRaw (s : String) (chord : ℝ) (N : ℕ) : List (ℝ × ℝ) :=
  ((List.range (N + 1)).map fun i =>
    (nacaXU s chord (nacaStation N i), nacaYU s chord N i)) ++
  ((List.range' 1 (N - 1)).reverse.map fun i =>
    (nacaXL s chord (nacaStation N i), nacaYL s chord N i))

/-- `THREE.ShapeUtils.area`: half the cyclic cross-product sum. -/
noncomputable def signedArea (pts : List (ℝ × ℝ)) : ℝ :=
  0.5 * ((pts.zip (pts.rotate 1)).map fun q =>
    q.1.1 * q.2.2 - q.2.1 * q.1.2).sum

open Classical in
/-- Embedding of `makeNaca4Shape(naca, chord, N)`: the polyline handed
to `THREE.Shape`, after the winding normalization
`if (!isClockWise(pts)) pts.reverse()` (clockwise means negative signed
area). -/
noncomputable def makeNaca4Shape (s : String) (chord : ℝ) (N : ℕ) : List (ℝ × ℝ) :=
  let pts := nacaPtsRaw s chord N
  if signedArea pts < 0 then pts else pts.reverse

/-- Well-formedness of a stored NACA code: `none`, or exactly four digit
characters (the shape every code held by a normalized wing record has). -/
def nacaOk : Option String → Prop
  | none => True
  | some s => s.toList.length = 4 ∧ s.toList.all Char.isDigit = true

/-- Post-state of the wing branch: every wing field is a number in
range, the foreign keys are deleted, and the code is clean. -/
def WingPost (q : JRecord) : Prop :=
  (∃ s, q.span = JVal.num s ∧ 0 < s ∧ s ≤ 100) ∧
  (∃ r, q.rootChord = JVal.num r ∧ 0 < r) ∧
  (∃ c, q.tipChord = JVal.num c ∧ 0 < c) ∧
  (∃ w, q.sweep = JVal.num w ∧ 0 ≤ w ∧ w ≤ 60) ∧
  q.length = JVal.undef ∧ q.diameter = JVal.undef ∧ q.chord = JVal.undef ∧
  nacaOk q.naca

/-- Post-state of the fuselage branch. -/
def FusPost (q : JRecord) : Prop :=
  (∃ l, q.length = JVal.num l ∧ 0 < l) ∧
  (∃ d, q.diameter = JVal.num d ∧ 0 < d) ∧
  q.span = JVal.undef ∧ q.sweep = JVal.undef ∧ q.chord = JVal.undef

/-- Post-state of the stabilizer (fallback) branch. -/
def StabPost (q : JRecord) : Prop :=
  (∃ s, q.span = JVal.num s ∧ 0 < s) ∧
  (∃ w, q.sweep = JVal.num w ∧ 0 ≤ w ∧ w ≤ 60) ∧
  q.length = JVal.undef ∧ q.diameter = JVal.undef ∧ q.chord = JVal.undef

theorem charOfNat_toNat_of_le (n : ℕ) (h1 : 97 ≤ n) (h2 : n ≤ 122) :
    (Char.ofNat n).toNat = n := by
  unfold Char.ofNat
  split
  · simp [Char.ofNatAux, Char.toNat, UInt32.toNat, UInt32.ofNatCore]
  · rename_i h
    exfalso
    apply h
    simp [Nat.isValidChar, UInt32.isValidChar]
    omega

theorem jsCharLower_idem (c : Char) : jsCharLower (jsCharLower c) = jsCharLower c := by
  unfold jsCharLower
  by_cases h : 65 ≤ c.toNat ∧ c.toNat ≤ 90
  · rw [if_pos h]
    have ht : (Char.ofNat (c.toNat + 32)).toNat = c.toNat + 32 :=
      charOfNat_toNat_of_le _ (by omega) (by omega)
    rw [if_neg (by rw [ht]; omega)]
  · rw [if_neg h, if_neg h]

theorem jsLower_idem (s : String) : jsLower (jsLower s) = jsLower s := by
  unfold jsLower
  congr 1
  show (s.toList.map jsCharLower).map jsCharLower = s.toList.map jsCharLower
  rw [List.map_map]
  exact List.map_congr_left (fun c _ => jsCharLower_idem c)

theorem jsLower_eq_empty_iff (s : String) : jsLower s = "" ↔ s = "" := by
  constructor
  · intro h
    have h2 : s.toList.map jsCharLower = [] := congrArg String.data h
    have h3 : s.toList = [] := List.map_eq_nil_iff.mp h2
    cases s with
    | mk data => simpa [String.toList] using congrArg String.mk h3
  · intro h
    subst h
    rfl

theorem guess_mem (ui g : String) (h : guessPartTypeFromText ui = some g) :
    g = "wing" ∨ g = "fuselage" ∨ g = "stabilizer" := by
  simp only [guessPartTypeFromText] at h
  split_ifs at h <;> simp_all

theorem resolveType_ne_empty (t : Option String) (ui t0 : String) (w0 : List String)
    (h : resolveType t ui = some (t0, w0)) : t0 ≠ "" := by
  have hg : ∀ g, guessPartTypeFromText ui = some g → g ≠ "" := by
    intro g hgg
    rcases guess_mem ui g hgg with h | h | h <;> simp [h]
  cases t with
  | none =>
    simp only [resolveType] at h
    cases hgg : guessPartTypeFromText ui with
    | none => rw [hgg] at h; simp at h
    | some g =>
      rw [hgg] at h
      simp at h
      rw [← h.1]
      exact hg g hgg
  | some s =>
    simp only [resolveType] at h
    by_cases hs : s = ""
    · rw [if_pos hs] at h
      cases hgg : guessPartTypeFromText ui with
      | none => rw [hgg] at h; simp at h
      | some g =>
        rw [hgg] at h
        simp at h
        rw [← h.1]
        exact hg g hgg
    · rw [if_neg hs] at h
      simp at h
      rw [← h.1]
      exact hs

theorem strMk_toList (s : String) : String.mk s.toList = s := by
  cases s
  rfl

theorem tryNacaAt_digits (l : List Char) (d : String) (h : tryNacaAt l = some d) :
    d.toList.length = 4 ∧ d.toList.all Char.isDigit = true := by
  unfold tryNacaAt at h
  split at h
  · dsimp only at h
    split at h
    · rename_i hcond
      simp only [Option.some.injEq] at h
      subst h
      simp only [Bool.and_eq_true, decide_eq_true_eq] at hcond
      exact ⟨by simpa [String.toList] using hcond.1, by simpa [String.toList] using hcond.2⟩
    · simp at h
  · simp at h

theorem scanNaca_digits : ∀ (l : List Char) (d : String), scanNaca l = some d →
    d.toList.length = 4 ∧ d.toList.all Char.isDigit = true
  | [], d => by simp [scanNaca]
  | c :: rest, d => by
    intro h
    unfold scanNaca at h
    cases ht : tryNacaAt (c :: rest) with
    | some s =>
      rw [ht] at h
      simp at h
      subst h
      exact tryNacaAt_digits _ _ ht
    | none =>
      rw [ht] at h
      exact scanNaca_digits rest d h

theorem nacaClean_fix (n : Option String) (h : nacaOk n) : nacaClean n = n := by
  cases n with
  | none => rfl
  | some s =>
    obtain ⟨h4, hd⟩ := h
    simp only [nacaClean]
    have hf : s.toList.filter Char.isDigit = s.toList :=
      List.filter_eq_self.mpr (by simpa [List.all_eq_true] using hd)
    simp only [hf, h4, if_pos]
    rw [strMk_toList]

theorem nacaClean_ok (n : Option String) : nacaOk (nacaClean n) := by
  cases n with
  | none => trivial
  | some s =>
    simp only [nacaClean]
    split_ifs with h
    · refine ⟨by simpa [String.toList] using h, ?_⟩
      simp only [String.toList, List.all_eq_true]
      intro c hc
      exact List.of_mem_filter hc
    · trivial

theorem renacaFill_ok (n : Option String) (ui : String) (h : nacaOk n) :
    nacaOk (renacaFill n ui) := by
  unfold renacaFill
  split_ifs with hf
  · cases hc : nacaCodeFromText ui with
    | none => simp [hc] at hf
    | some d => exact scanNaca_digits _ _ hc
  · exact h

theorem missingOrNonpos_num_pos (s : ℚ) (h : 0 < s) :
    missingOrNonpos (.num s) = false := by
  simp [missingOrNonpos, JVal.isNum, JVal.le0, not_le.mpr h]

theorem coerceOne_num (x : ℚ) : coerceOne (.num x) = .num x := rfl

theorem coerceOne_undef : coerceOne .undef = .undef := rfl

theorem wingStep1_char (size : Option ℚ) (p : JRecord) :
    ∃ sp w, wingStep1 size p = ({ p with span := sp }, w) := by
  unfold wingStep1
  cases size with
  | none => exact ⟨p.span, [], rfl⟩
  | some v =>
    dsimp only
    split_ifs with h
    · exact ⟨.num v, [msgMapWingSpan], rfl⟩
    · exact ⟨p.span, [], rfl⟩

theorem wingStep2_char (p : JRecord) :
    ∃ rc tc w, wingStep2 p = ({ p with rootChord := rc, tipChord := tc }, w) := by
  unfold wingStep2 applyChordFill applyRootDefault applyTipDefault
  dsimp only
  split_ifs <;> exact ⟨_, _, _, rfl⟩

theorem wingStep3_char (p : JRecord) :
    ∃ sp w, wingStep3 p = ({ p with span := sp }, w) := by
  unfold wingStep3
  dsimp only
  split_ifs <;> exact ⟨_, _, rfl⟩

theorem wingStep4_char (p : JRecord) :
    ∃ sw w, wingStep4 p = ({ p with sweep := sw }, w) := by
  unfold wingStep4
  dsimp only
  split_ifs <;> exact ⟨_, _, rfl⟩

theorem fusStep1_char (size : Option ℚ) (p : JRecord) :
    ∃ l w, fusStep1 size p = ({ p with length := l }, w) := by
  unfold fusStep1
  cases size with
  | none => exact ⟨p.length, [], rfl⟩
  | some v =>
    dsimp only
    split_ifs <;> exact ⟨_, _, rfl⟩

theorem fusStep2_char (p : JRecord) :
    ∃ l d w, fusStep2 p = ({ p with length := l, diameter := d }, w) := by
  unfold fusStep2 applyFusLengthDefault applyFusDiamDefault
  dsimp only
  split_ifs <;> exact ⟨_, _, _, rfl⟩

theorem stabStep1_char (size : Option ℚ) (p : JRecord) :
    ∃ sp w, stabStep1 size p = ({ p with span := sp }, w) := by
  unfold stabStep1
  cases size with
  | none => exact ⟨p.span, [], rfl⟩
  | some v =>
    dsimp only
    split_ifs <;> exact ⟨_, _, rfl⟩

theorem stabStep2_char (p : JRecord) :
    ∃ sp w, stabStep2 p = ({ p with span := sp }, w) := by
  unfold stabStep2
  dsimp only
  split_ifs <;> exact ⟨_, _, rfl⟩

theorem stabStep3_char (p : JRecord) :
    ∃ sw, stabStep3 p = { p with sweep := sw, length := .undef,
                                 diameter := .undef, chord := .undef } := by
  unfold stabStep3
  dsimp only
  split_ifs <;> exact ⟨_, rfl⟩

theorem missingOrNonpos_false (v : JVal) (h : missingOrNonpos v = false) :
    ∃ r, v = .num r ∧ 0 < r := by
  cases v with
  | num x =>
    refine ⟨x, rfl, ?_⟩
    simpa [missingOrNonpos, JVal.isNum, JVal.le0] using h
  | null => simp [missingOrNonpos, JVal.isNum, JVal.le0] at h
  | undef => simp [missingOrNonpos, JVal.isNum] at h
  | nan => simp [missingOrNonpos, JVal.isNum] at h

theorem wingStep1_pos (size : Option ℚ) (p : JRecord) (s : ℚ)
    (hs : p.span = .num s) (h0 : 0 < s) : wingStep1 size p = (p, []) := by
  unfold wingStep1
  cases size with
  | none => rfl
  | some v =>
    dsimp only
    rw [hs, missingOrNonpos_num_pos s h0]
    simp

theorem applyChordFill_fix (p : JRecord) (hr : p.rootChord.isNum = true)
    (ht : p.tipChord.isNum = true) : applyChordFill p = p := by
  unfold applyChordFill
  dsimp only
  simp [hr, ht]

theorem applyRootDefault_post (p : JRecord) :
    ∃ r, ((applyRootDefault p).1).rootChord = .num r ∧ 0 < r := by
  unfold applyRootDefault
  split_ifs with h
  · exact ⟨2, rfl, by norm_num⟩
  · exact missingOrNonpos_false _ (by simpa using h)

theorem applyRootDefault_fix (p : JRecord) (r : ℚ) (hr : p.rootChord = .num r)
    (h0 : 0 < r) : applyRootDefault p = (p, []) := by
  unfold applyRootDefault
  rw [hr, missingOrNonpos_num_pos r h0]
  simp

theorem applyTipDefault_char (p : JRecord) :
    ∃ tc w, applyTipDefault p = ({ p with tipChord := tc }, w) := by
  unfold applyTipDefault
  split_ifs <;> exact ⟨_, _, rfl⟩

theorem applyTipDefault_post (p : JRecord) (r : ℚ) (hr : p.rootChord = .num r)
    (h0 : 0 < r) : ∃ c, ((applyTipDefault p).1).tipChord = .num c ∧ 0 < c := by
  unfold applyTipDefault
  split_ifs with h
  · refine ⟨r * 0.5, by simp [hr, JVal.toQ], by positivity⟩
  · exact missingOrNonpos_false _ (by simpa using h)

theorem applyTipDefault_fix (p : JRecord) (c : ℚ) (hc : p.tipChord = .num c)
    (h0 : 0 < c) : applyTipDefault p = (p, []) := by
  unfold applyTipDefault
  rw [hc, missingOrNonpos_num_pos c h0]
  simp

theorem wingStep2_post (p : JRecord) :
    (∃ r, ((wingStep2 p).1).rootChord = .num r ∧ 0 < r) ∧
    (∃ c, ((wingStep2 p).1).tipChord = .num c ∧ 0 < c) := by
  unfold wingStep2
  dsimp only
  obtain ⟨r, hr, h0⟩ := applyRootDefault_post (applyChordFill p)
  constructor
  · obtain ⟨tc, w, heq⟩ := applyTipDefault_char (applyRootDefault (applyChordFill p)).1
    rw [heq]
    exact ⟨r, hr, h0⟩
  · exact applyTipDefault_post _ r hr h0

theorem wingStep2_fix (p : JRecord) (r c : ℚ) (hr : p.rootChord = .num r) (h0r : 0 < r)
    (hc : p.tipChord = .num c) (h0c : 0 < c) : wingStep2 p = (p, []) := by
  unfold wingStep2
  dsimp only
  rw [applyChordFill_fix p (by simp [hr, JVal.isNum]) (by simp [hc, JVal.isNum]),
      applyRootDefault_fix p r hr h0r]
  rw [applyTipDefault_fix p c hc h0c]
  rfl

theorem wingStep3_pos (p : JRecord) (s : ℚ) (hs : p.span = .num s) (h0 : 0 < s) :
    wingStep3 p = ({ p with span := .num (if 100 < s then 100 else s) },
                   if 100 < s then [msgSpanClamped] else []) := by
  obtain ⟨ty, sp, le, di, ch, sw, rc, tc, na⟩ := p
  subst hs
  unfold wingStep3
  dsimp only
  rw [missingOrNonpos_num_pos s h0]
  by_cases h1 : 100 < s
  · simp [JVal.gt100, h1]
  · simp [JVal.gt100, h1]

theorem wingStep3_fix (p : JRecord) (s : ℚ) (hs : p.span = .num s) (h0 : 0 < s)
    (h100 : s ≤ 100) : wingStep3 p = (p, []) := by
  obtain ⟨ty, sp, le, di, ch, sw, rc, tc, na⟩ := p
  subst hs
  unfold wingStep3
  dsimp only
  rw [missingOrNonpos_num_pos s h0]
  simp [JVal.gt100, not_lt.mpr h100]

theorem wingStep3_post (p : JRecord) :
    ∃ s, ((wingStep3 p).1).span = .num s ∧ 0 < s ∧ s ≤ 100 := by
  by_cases h : missingOrNonpos p.span = true
  · unfold wingStep3
    dsimp only
    rw [h]
    refine ⟨10, ?_⟩
    simp [JVal.gt100]
    norm_num
  · obtain ⟨s, hs, h0⟩ := missingOrNonpos_false _ (by simpa using h)
    rw [wingStep3_pos p s hs h0]
    by_cases h1 : 100 < s
    · exact ⟨100, by simp [h1], by norm_num, by norm_num⟩
    · exact ⟨s, by simp [h1], h0, not_lt.mp h1⟩

theorem wingStep4_num (p : JRecord) (w : ℚ) (hw : p.sweep = .num w) :
    wingStep4 p = ({ p with sweep := .num (max 0 (min 60 w)) }, []) := by
  obtain ⟨ty, sp, le, di, ch, sw, rc, tc, na⟩ := p
  subst hw
  unfold wingStep4
  dsimp only
  simp [JVal.isNum, jsSweepClamp]

theorem wingStep4_fix (p : JRecord) (w : ℚ) (hw : p.sweep = .num w) (h0 : 0 ≤ w)
    (h60 : w ≤ 60) : wingStep4 p = (p, []) := by
  rw [wingStep4_num p w hw]
  rw [min_eq_right h60, max_eq_right h0]
  obtain ⟨ty, sp, le, di, ch, sw, rc, tc, na⟩ := p
  subst hw
  rfl

theorem wingStep4_post (p : JRecord) :
    ∃ w, ((wingStep4 p).1).sweep = .num w ∧ 0 ≤ w ∧ w ≤ 60 := by
  obtain ⟨ty, sp, le, di, ch, sw, rc, tc, na⟩ := p
  cases sw with
  | num x =>
    rw [wingStep4_num _ x rfl]
    refine ⟨max 0 (min 60 x), rfl, le_max_left 0 _, ?_⟩
    exact max_le (by norm_num) (min_le_left 60 x)
  | null =>
    unfold wingStep4
    exact ⟨0, rfl, le_refl 0, by norm_num⟩
  | undef =>
    unfold wingStep4
    exact ⟨0, by simp [JVal.isNum, jsSweepClamp], le_refl 0, by norm_num⟩
  | nan =>
    unfold wingStep4
    exact ⟨0, by simp [JVal.isNum, jsSweepClamp], le_refl 0, by norm_num⟩

theorem wingBranch_post (size : Option ℚ) (p : JRecord) :
    WingPost ((wingBranch size p).1) := by
  unfold wingBranch
  dsimp only
  obtain ⟨hroot, htip⟩ := wingStep2_post (wingStep1 size p).1
  obtain ⟨r, hr, h0r⟩ := hroot
  obtain ⟨c, hc, h0c⟩ := htip
  obtain ⟨s3, hs3, h03, h103⟩ := wingStep3_post (wingStep2 (wingStep1 size p).1).1
  obtain ⟨w4, hw4, h0w, h60w⟩ := wingStep4_post (wingStep3 (wingStep2 (wingStep1 size p).1).1).1
  obtain ⟨sp3, wl3, heq3⟩ := wingStep3_char (wingStep2 (wingStep1 size p).1).1
  obtain ⟨sw4, wl4, heq4⟩ := wingStep4_char (wingStep3 (wingStep2 (wingStep1 size p).1).1).1
  refine ⟨⟨s3, ?_, h03, h103⟩, ⟨r, ?_, h0r⟩, ⟨c, ?_, h0c⟩, ⟨w4, ?_, h0w, h60w⟩,
    rfl, rfl, rfl, ?_⟩
  · show ((wingStep4 (wingStep3 (wingStep2 (wingStep1 size p).1).1).1).1).span = _
    rw [heq4]
    exact hs3
  · show ((wingStep4 (wingStep3 (wingStep2 (wingStep1 size p).1).1).1).1).rootChord = _
    rw [heq4, heq3]
    exact hr
  · show ((wingStep4 (wingStep3 (wingStep2 (wingStep1 size p).1).1).1).1).tipChord = _
    rw [heq4, heq3]
    exact hc
  · exact hw4
  · exact nacaClean_ok _

theorem wingBranch_fix (size : Option ℚ) (p : JRecord) (h : WingPost p) :
    wingBranch size p = (p, []) := by
  obtain ⟨⟨s, hs, h0, h100⟩, ⟨r, hr, h0r⟩, ⟨c, hc, h0c⟩, ⟨w, hw, hw0, hw60⟩,
    hlen, hdia, hch, hnaca⟩ := h
  unfold wingBranch
  dsimp only
  rw [wingStep1_pos size p s hs h0]
  rw [wingStep2_fix p r c hr h0r hc h0c]
  rw [wingStep3_fix p s hs h0 h100]
  rw [wingStep4_fix p w hw hw0 hw60]
  unfold wingStep5
  rw [nacaClean_fix _ hnaca]
  obtain ⟨ty, sp, le, di, ch, sw, rc, tc, na⟩ := p
  subst hlen
  subst hdia
  subst hch
  rfl

theorem fusStep1_pos (size : Option ℚ) (p : JRecord) (l : ℚ)
    (hl : p.length = .num l) (h0 : 0 < l) : fusStep1 size p = (p, []) := by
  unfold fusStep1
  cases size with
  | none => rfl
  | some v =>
    dsimp only
    rw [hl, missingOrNonpos_num_pos l h0]
    simp

theorem applyFusLengthDefault_post (p : JRecord) :
    ∃ l, ((applyFusLengthDefault p).1).length = .num l ∧ 0 < l := by
  unfold applyFusLengthDefault
  split_ifs with h
  · exact ⟨8, rfl, by norm_num⟩
  · exact missingOrNonpos_false _ (by simpa using h)

theorem applyFusLengthDefault_fix (p : JRecord) (l : ℚ) (hl : p.length = .num l)
    (h0 : 0 < l) : applyFusLengthDefault p = (p, []) := by
  unfold applyFusLengthDefault
  rw [hl, missingOrNonpos_num_pos l h0]
  simp

theorem applyFusDiamDefault_char (p : JRecord) :
    ∃ d w, applyFusDiamDefault p = ({ p with diameter := d }, w) := by
  unfold applyFusDiamDefault
  split_ifs <;> exact ⟨_, _, rfl⟩

theorem applyFusDiamDefault_post (p : JRecord) :
    ∃ d, ((applyFusDiamDefault p).1).diameter = .num d ∧ 0 < d := by
  unfold applyFusDiamDefault
  split_ifs with h
  · exact ⟨2, rfl, by norm_num⟩
  · exact missingOrNonpos_false _ (by simpa using h)

theorem applyFusDiamDefault_fix (p : JRecord) (d : ℚ) (hd : p.diameter = .num d)
    (h0 : 0 < d) : applyFusDiamDefault p = (p, []) := by
  unfold applyFusDiamDefault
  rw [hd, missingOrNonpos_num_pos d h0]
  simp

theorem fusStep2_post (p : JRecord) :
    (∃ l, ((fusStep2 p).1).length = .num l ∧ 0 < l) ∧
    (∃ d, ((fusStep2 p).1).diameter = .num d ∧ 0 < d) := by
  unfold fusStep2
  dsimp only
  obtain ⟨l, hl, h0⟩ := applyFusLengthDefault_post p
  constructor
  · obtain ⟨d, w, heq⟩ := applyFusDiamDefault_char (applyFusLengthDefault p).1
    rw [heq]
    exact ⟨l, hl, h0⟩
  · exact applyFusDiamDefault_post _

theorem fusStep2_fix (p : JRecord) (l d : ℚ) (hl : p.length = .num l) (h0l : 0 < l)
    (hd : p.diameter = .num d) (h0d : 0 < d) : fusStep2 p = (p, []) := by
  unfold fusStep2
  dsimp only
  rw [applyFusLengthDefault_fix p l hl h0l]
  rw [applyFusDiamDefault_fix p d hd h0d]
  rfl

theorem fusBranch_post (size : Option ℚ) (p : JRecord) :
    FusPost ((fusBranch size p).1) := by
  unfold fusBranch
  dsimp only
  obtain ⟨hlen, hdia⟩ := fusStep2_post (fusStep1 size p).1
  exact ⟨hlen, hdia, rfl, rfl, rfl⟩

theorem fusBranch_fix (size : Option ℚ) (p : JRecord) (h : FusPost p) :
    fusBranch size p = (p, []) := by
  obtain ⟨⟨l, hl, h0l⟩, ⟨d, hd, h0d⟩, hsp, hsw, hch⟩ := h
  unfold fusBranch
  dsimp only
  rw [fusStep1_pos size p l hl h0l]
  rw [fusStep2_fix p l d hl h0l hd h0d]
  unfold fusStep3
  obtain ⟨ty, sp, le, di, ch, sw, rc, tc, na⟩ := p
  subst hsp
  subst hsw
  subst hch
  rfl

theorem stabStep1_pos (size : Option ℚ) (p : JRecord) (s : ℚ)
    (hs : p.span = .num s) (h0 : 0 < s) : stabStep1 size p = (p, []) := by
  unfold stabStep1
  cases size with
  | none => rfl
  | some v =>
    dsimp only
    rw [hs, missingOrNonpos_num_pos s h0]
    simp

theorem stabStep2_post (p : JRecord) :
    ∃ s, ((stabStep2 p).1).span = .num s ∧ 0 < s := by
  unfold stabStep2
  dsimp only
  split_ifs with h
  · exact ⟨4, rfl, by norm_num⟩
  · exact missingOrNonpos_false _ (by simpa using h)

theorem stabStep2_fix (p : JRecord) (s : ℚ) (hs : p.span = .num s) (h0 : 0 < s) :
    stabStep2 p = (p, []) := by
  unfold stabStep2
  dsimp only
  rw [hs, missingOrNonpos_num_pos s h0]
  simp

theorem stabStep3_post (p : JRecord) :
    ∃ w, (stabStep3 p).sweep = .num w ∧ 0 ≤ w ∧ w ≤ 60 := by
  obtain ⟨ty, sp, le, di, ch, sw, rc, tc, na⟩ := p
  cases sw with
  | num x =>
    unfold stabStep3
    refine ⟨max 0 (min 60 x), by simp [JVal.isNum, jsSweepClamp], le_max_left 0 _, ?_⟩
    exact max_le (by norm_num) (min_le_left 60 x)
  | null =>
    unfold stabStep3
    exact ⟨0, by simp [JVal.isNum, jsSweepClamp], le_refl 0, by norm_num⟩
  | undef =>
    unfold stabStep3
    exact ⟨0, by simp [JVal.isNum, jsSweepClamp], le_refl 0, by norm_num⟩
  | nan =>
    unfold stabStep3
    exact ⟨0, by simp [JVal.isNum, jsSweepClamp], le_refl 0, by norm_num⟩

theorem stabStep3_fix (p : JRecord) (w : ℚ) (hw : p.sweep = .num w) (h0 : 0 ≤ w)
    (h60 : w ≤ 60) (hlen : p.length = .undef) (hdia : p.diameter = .undef)
    (hch : p.chord = .undef) : stabStep3 p = p := by
  obtain ⟨ty, sp, le, di, ch, sw, rc, tc, na⟩ := p
  subst hw
  subst hlen
  subst hdia
  subst hch
  unfold stabStep3
  simp [JVal.isNum, jsSweepClamp, min_eq_right h60, max_eq_right h0]

theorem stabBranch_post (size : Option ℚ) (p : JRecord) :
    StabPost ((stabBranch size p).1) := by
  unfold stabBranch
  dsimp only
  obtain ⟨s, hs, h0⟩ := stabStep2_post (stabStep1 size p).1
  obtain ⟨w, hw, h0w, h60w⟩ := stabStep3_post (stabStep2 (stabStep1 size p).1).1
  obtain ⟨sw3, heq3⟩ := stabStep3_char (stabStep2 (stabStep1 size p).1).1
  refine ⟨⟨s, ?_, h0⟩, ⟨w, hw, h0w, h60w⟩, ?_, ?_, ?_⟩
  · rw [heq3]
    exact hs
  · rw [heq3]
  · rw [heq3]
  · rw [heq3]

theorem stabBranch_fix (size : Option ℚ) (p : JRecord) (h : StabPost p) :
    stabBranch size p = (p, []) := by
  obtain ⟨⟨s, hs, h0⟩, ⟨w, hw, h0w, h60w⟩, hlen, hdia, hch⟩ := h
  unfold stabBranch
  dsimp only
  rw [stabStep1_pos size p s hs h0]
  rw [stabStep2_fix p s hs h0]
  rw [stabStep3_fix p w hw h0w h60w hlen hdia hch]
  rfl

theorem wingBranch_type (size : Option ℚ) (p : JRecord) :
    ((wingBranch size p).1).type = p.type := by
  unfold wingBranch
  dsimp only
  obtain ⟨sw4, w4, h4⟩ := wingStep4_char (wingStep3 (wingStep2 (wingStep1 size p).1).1).1
  obtain ⟨sp3, w3, h3⟩ := wingStep3_char (wingStep2 (wingStep1 size p).1).1
  obtain ⟨rc2, tc2, w2, h2⟩ := wingStep2_char (wingStep1 size p).1
  obtain ⟨sp1, wl1, h1⟩ := wingStep1_char size p
  rw [h4, h3, h2, h1]
  rfl

theorem fusBranch_type (size : Option ℚ) (p : JRecord) :
    ((fusBranch size p).1).type = p.type := by
  unfold fusBranch
  dsimp only
  obtain ⟨l2, d2, w2, h2⟩ := fusStep2_char (fusStep1 size p).1
  obtain ⟨l1, wl1, h1⟩ := fusStep1_char size p
  rw [h2, h1]
  rfl

theorem stabBranch_type (size : Option ℚ) (p : JRecord) :
    ((stabBranch size p).1).type = p.type := by
  unfold stabBranch
  dsimp only
  obtain ⟨sw3, h3⟩ := stabStep3_char (stabStep2 (stabStep1 size p).1).1
  obtain ⟨sp2, w2, h2⟩ := stabStep2_char (stabStep1 size p).1
  obtain ⟨sp1, wl1, h1⟩ := stabStep1_char size p
  rw [h3, h2, h1]

theorem update_type_self (q : JRecord) (t : Option String) (n : Option String)
    (h : q.type = t) : ({ q with type := t, naca := n } : JRecord) = { q with naca := n } := by
  cases q
  subst h
  rfl

theorem coerceOne_of_num (v : JVal) (x : ℚ) (h : v = .num x) : coerceOne v = v := by
  subst h
  rfl

theorem coerceOne_of_undef (v : JVal) (h : v = .undef) : coerceOne v = v := by
  subst h
  rfl

theorem coerceKeys_eq_self (q : JRecord)
    (h1 : coerceOne q.span = q.span) (h2 : coerceOne q.length = q.length)
    (h3 : coerceOne q.diameter = q.diameter) (h4 : coerceOne q.chord = q.chord)
    (h5 : coerceOne q.sweep = q.sweep) : coerceKeys q = q := by
  unfold coerceKeys
  cases q
  dsimp only at h1 h2 h3 h4 h5 ⊢
  rw [h1, h2, h3, h4, h5]

theorem WingPost_naca (q : JRecord) (n : Option String) (h : WingPost q)
    (hn : nacaOk n) : WingPost ({ q with naca := n } : JRecord) := by
  obtain ⟨a, b, c, d, e, f, g, _⟩ := h
  exact ⟨a, b, c, d, e, f, g, hn⟩

theorem FusPost_naca (q : JRecord) (n : Option String) (h : FusPost q) :
    FusPost ({ q with naca := n } : JRecord) := by
  obtain ⟨a, b, c, d, e⟩ := h
  exact ⟨a, b, c, d, e⟩

theorem StabPost_naca (q : JRecord) (n : Option String) (h : StabPost q) :
    StabPost ({ q with naca := n } : JRecord) := by
  obtain ⟨a, b, c, d, e⟩ := h
  exact ⟨a, b, c, d, e⟩

theorem validate_run1_shape (raw : JRecord) (text : String) (p1 : JRecord)
    (w1 : List String) (h : validateParams raw text = .ok (p1, w1)) :
    ∃ t0, p1.type = some (jsLower t0) ∧ jsLower t0 ≠ "" ∧
      ((strContains (jsLower t0) "wing" = true ∧ WingPost p1) ∨
       (strContains (jsLower t0) "wing" = false ∧
        strContains (jsLower t0) "fuselage" = true ∧ FusPost p1) ∨
       (strContains (jsLower t0) "wing" = false ∧
        strContains (jsLower t0) "fuselage" = false ∧ StabPost p1)) := by
  unfold validateParams at h
  cases hres : resolveType raw.type text with
  | none => rw [hres] at h; simp at h
  | some tw =>
    obtain ⟨t0, w0⟩ := tw
    rw [hres] at h
    dsimp only at h
    have htne : t0 ≠ "" := resolveType_ne_empty _ _ _ _ hres
    have htyne : jsLower t0 ≠ "" := fun hh => htne ((jsLower_eq_empty_iff t0).mp hh)
    refine ⟨t0, ?_, htyne, ?_⟩
    all_goals {
      by_cases hw : strContains (jsLower t0) "wing" = true
      · rw [if_pos hw] at h
        simp only [Except.ok.injEq, Prod.mk.injEq] at h
        obtain ⟨h1, h2⟩ := h
        first
        | (rw [← h1, wingBranch_type]; rfl)
        | (exact Or.inl ⟨hw, h1 ▸ wingBranch_post _ _⟩)
      · rw [if_neg hw] at h
        by_cases hf : strContains (jsLower t0) "fuselage" = true
        · rw [if_pos hf] at h
          simp only [Except.ok.injEq, Prod.mk.injEq] at h
          obtain ⟨h1, h2⟩ := h
          first
          | (rw [← h1, fusBranch_type]; rfl)
          | (exact Or.inr (Or.inl ⟨Bool.not_eq_true _ ▸ eq_false_of_ne_true hw, hf,
              h1 ▸ fusBranch_post _ _⟩))
        · rw [if_neg hf] at h
          simp only [Except.ok.injEq, Prod.mk.injEq] at h
          obtain ⟨h1, h2⟩ := h
          first
          | (rw [← h1, stabBranch_type]; rfl)
          | (exact Or.inr (Or.inr ⟨eq_false_of_ne_true hw, eq_false_of_ne_true hf,
              h1 ▸ stabBranch_post _ _⟩))
    }

theorem coerceKeys_update_naca (q : JRecord) (n : Option String)
    (h1 : coerceOne q.span = q.span) (h2 : coerceOne q.length = q.length)
    (h3 : coerceOne q.diameter = q.diameter) (h4 : coerceOne q.chord = q.chord)
    (h5 : coerceOne q.sweep = q.sweep) :
    coerceKeys ({ q with naca := n } : JRecord) = { q with naca := n } := by
  unfold coerceKeys
  cases q
  dsimp only at h1 h2 h3 h4 h5 ⊢
  rw [h1, h2, h3, h4, h5]

theorem validate_run2 (text : String) (p1 : JRecord) (t0 : String)
    (hty : p1.type = some (jsLower t0)) (hne : jsLower t0 ≠ "")
    (hbr : (strContains (jsLower t0) "wing" = true ∧ WingPost p1) ∨
       (strContains (jsLower t0) "wing" = false ∧
        strContains (jsLower t0) "fuselage" = true ∧ FusPost p1) ∨
       (strContains (jsLower t0) "wing" = false ∧
        strContains (jsLower t0) "fuselage" = false ∧ StabPost p1)) :
    validateParams p1 text = .ok ({ p1 with naca := renacaFill p1.naca text }, []) := by
  unfold validateParams
  have hres2 : resolveType p1.type text = some (jsLower t0, []) := by
    rw [hty]
    unfold resolveType
    dsimp only
    rw [if_neg hne]
  rw [hres2]
  dsimp only
  rw [jsLower_idem t0]
  have hN : (if (nacaFalsy p1.naca && (nacaCodeFromText text).isSome) = true
             then nacaCodeFromText text else p1.naca) = renacaFill p1.naca text := rfl
  rw [hN]
  rcases hbr with ⟨hw, hpost⟩ | ⟨hw, hf, hpost⟩ | ⟨hw, hf, hpost⟩
  · have hpost' := hpost
    obtain ⟨⟨s, hs, hs0, hs100⟩, ⟨r, hr, hr0⟩, ⟨c, hc, hc0⟩, ⟨w, hwv, hw0, hw60⟩,
      hlen, hdia, hch, hnaca⟩ := hpost
    rw [update_type_self p1 (some (jsLower t0)) _ hty]
    rw [coerceKeys_update_naca _ _ (coerceOne_of_num _ s hs) (coerceOne_of_undef _ hlen)
        (coerceOne_of_undef _ hdia) (coerceOne_of_undef _ hch) (coerceOne_of_num _ w hwv)]
    rw [if_pos hw]
    rw [wingBranch_fix _ _ (WingPost_naca _ _ hpost' (renacaFill_ok _ text hnaca))]
    rfl
  · have hpost' := hpost
    obtain ⟨⟨l, hl, hl0⟩, ⟨d, hd, hd0⟩, hsp, hsw, hch⟩ := hpost
    rw [update_type_self p1 (some (jsLower t0)) _ hty]
    rw [coerceKeys_update_naca _ _ (coerceOne_of_undef _ hsp) (coerceOne_of_num _ l hl)
        (coerceOne_of_num _ d hd) (coerceOne_of_undef _ hch) (coerceOne_of_undef _ hsw)]
    rw [if_neg (by simp [hw]), if_pos hf]
    rw [fusBranch_fix _ _ (FusPost_naca _ _ hpost')]
    rfl
  · have hpost' := hpost
    obtain ⟨⟨s, hs, hs0⟩, ⟨w, hwv, hw0, hw60⟩, hlen, hdia, hch⟩ := hpost
    rw [update_type_self p1 (some (jsLower t0)) _ hty]
    rw [coerceKeys_update_naca _ _ (coerceOne_of_num _ s hs) (coerceOne_of_undef _ hlen)
        (coerceOne_of_undef _ hdia) (coerceOne_of_undef _ hch) (coerceOne_of_num _ w hwv)]
    rw [if_neg (by simp [hw]), if_neg (by simp [hf])]
    rw [stabBranch_fix _ _ (StabPost_naca _ _ hpost')]
    rfl

theorem wingStep1_warn (size : Option ℚ) (p : JRecord) (x : String)
    (h : x ∈ (wingStep1 size p).2) : x = msgMapWingSpan := by
  unfold wingStep1 at h
  cases size with
  | none => simp at h
  | some v =>
    dsimp only at h
    split_ifs at h <;> simp_all

theorem wingStep2_warn (p : JRecord) (x : String) (h : x ∈ (wingStep2 p).2) :
    x = msgDefRootChord ∨ x = msgDefTipChord := by
  unfold wingStep2 applyRootDefault applyTipDefault at h
  dsimp only at h
  split_ifs at h <;> simp_all

theorem wingStep3_warn (p : JRecord) (x : String) (h : x ∈ (wingStep3 p).2) :
    x = msgDefWingSpan ∨ x = msgSpanClamped := by
  unfold wingStep3 at h
  dsimp only at h
  split_ifs at h <;> simp_all

theorem wingBranch_sweep_num (size : Option ℚ) (p : JRecord) (s : ℚ)
    (hs : p.sweep = .num s) :
    ((wingBranch size p).1).sweep = .num (max 0 (min 60 s)) ∧
    msgSweepNaN ∉ (wingBranch size p).2 := by
  unfold wingBranch
  dsimp only
  obtain ⟨sp1, w1, h1⟩ := wingStep1_char size p
  obtain ⟨rc2, tc2, w2, h2⟩ := wingStep2_char (wingStep1 size p).1
  obtain ⟨sp3, w3, h3⟩ := wingStep3_char (wingStep2 (wingStep1 size p).1).1
  have hsw3 : ((wingStep3 (wingStep2 (wingStep1 size p).1).1).1).sweep = .num s := by
    rw [h3, h2, h1]
    exact hs
  rw [wingStep4_num _ s hsw3]
  refine ⟨rfl, ?_⟩
  intro hmem
  rcases List.mem_append.mp hmem with hm | hmem2
  · exact absurd (wingStep1_warn size p _ hm) (by decide)
  rcases List.mem_append.mp hmem2 with hm | hmem3
  · rcases wingStep2_warn _ _ hm with h | h <;> revert h <;> decide
  rcases List.mem_append.mp hmem3 with hm | hm
  · rcases wingStep3_warn _ _ hm with h | h <;> revert h <;> decide
  · simp at hm

theorem wingBranch_span_pos (size : Option ℚ) (p : JRecord) (s : ℚ)
    (hs : p.span = .num s) (h0 : 0 < s) :
    ((wingBranch size p).1).span = .num (if 100 < s then 100 else s) := by
  unfold wingBranch
  dsimp only
  rw [wingStep1_pos size p s hs h0]
  obtain ⟨rc2, tc2, w2, h2⟩ := wingStep2_char p
  have hs2 : ((wingStep2 p).1).span = .num s := by
    rw [h2]
    exact hs
  rw [wingStep3_pos _ s hs2 h0]
  obtain ⟨sw4, w4, h4⟩ := wingStep4_char
    ({ (wingStep2 p).1 with span := .num (if 100 < s then 100 else s) } : JRecord)
  rw [h4]
  rfl

theorem wingBranch_span_fill (size : Option ℚ) (p : JRecord) (v : ℚ)
    (hmiss : missingOrNonpos p.span = true) (hsz : size = some v) (h0 : 0 < v) :
    ((wingBranch size p).1).span = .num (if 100 < v then 100 else v) ∧
    msgMapWingSpan ∈ (wingBranch size p).2 := by
  subst hsz
  unfold wingBranch
  dsimp only
  have h1 : wingStep1 (some v) p = ({ p with span := .num v }, [msgMapWingSpan]) := by
    unfold wingStep1
    dsimp only
    rw [hmiss]
    simp [h0]
  rw [h1]
  obtain ⟨rc2, tc2, w2, h2⟩ := wingStep2_char ({ p with span := .num v } : JRecord)
  have hs2 : ((wingStep2 ({ p with span := .num v } : JRecord)).1).span = .num v := by
    rw [h2]
  rw [wingStep3_pos _ v hs2 h0]
  obtain ⟨sw4, w4, h4⟩ := wingStep4_char
    ({ (wingStep2 ({ p with span := .num v } : JRecord)).1 with
       span := .num (if 100 < v then 100 else v) } : JRecord)
  rw [h4]
  exact ⟨rfl, by simp⟩

theorem fusBranch_length_pos (size : Option ℚ) (p : JRecord) (l : ℚ)
    (hl : p.length = .num l) (h0 : 0 < l) :
    ((fusBranch size p).1).length = .num l := by
  unfold fusBranch
  dsimp only
  rw [fusStep1_pos size p l hl h0]
  unfold fusStep2
  dsimp only
  rw [applyFusLengthDefault_fix p l hl h0]
  obtain ⟨d2, w2, h2⟩ := applyFusDiamDefault_char p
  rw [h2]
  exact hl

theorem fusBranch_length_fill (size : Option ℚ) (p : JRecord) (v : ℚ)
    (hmiss : missingOrNonpos p.length = true) (hsz : size = some v) (h0 : 0 < v) :
    ((fusBranch size p).1).length = .num v ∧
    msgMapFusLength ∈ (fusBranch size p).2 := by
  subst hsz
  unfold fusBranch
  dsimp only
  have h1 : fusStep1 (some v) p = ({ p with length := .num v }, [msgMapFusLength]) := by
    unfold fusStep1
    dsimp only
    rw [hmiss]
    simp [h0]
  rw [h1]
  unfold fusStep2
  dsimp only
  rw [applyFusLengthDefault_fix ({ p with length := .num v } : JRecord) v rfl h0]
  obtain ⟨d2, w2, h2⟩ := applyFusDiamDefault_char ({ p with length := .num v } : JRecord)
  rw [h2]
  exact ⟨rfl, by simp⟩

/-- Claim C4 (corrected): `validateParams` is idempotent up to the NACA
text-backfill.  Whenever a first run succeeds, re-running it on the
returned record with the same source text succeeds with zero warnings
and returns the identical record except possibly `naca`: a `null` code
is re-filled from a NACA code present in the text; a non-null code is
never changed.  (The claim as frozen — identical record, always — is
refuted by `C4_claim_counterexample`.) -/
theorem C4_normalize_idem_naca (raw : JRecord) (text : String) (p1 : JRecord)
    (w1 : List String) (h : validateParams raw text = .ok (p1, w1)) :
    validateParams p1 text = .ok ({ p1 with naca := renacaFill p1.naca text }, []) ∧
    (nacaFalsy p1.naca = false → renacaFill p1.naca text = p1.naca) := by
  obtain ⟨t0, hty, hne, hbr⟩ := validate_run1_shape raw text p1 w1 h
  exact ⟨validate_run2 text p1 t0 hty hne hbr,
    fun hf => by simp [renacaFill, hf]⟩

/-- C4, witness: the corrected idempotence theorem applied to a concrete
already-normalizable wing record. -/
theorem C4_normalize_idem_naca_witness :
    validateParams
      { type := some "wing", span := .num 10, length := .undef,
        diameter := .undef, chord := .undef, sweep := .num 0, rootChord := .num 2,
        tipChord := .num 1, naca := none }
      "" =
      .ok
        ({ type := some "wing", span := .num 10, length := .undef, diameter := .undef,
           chord := .undef, sweep := .num 0, rootChord := .num 2, tipChord := .num 1,
           naca := renacaFill none "" }, []) ∧
    (nacaFalsy (none : Option String) = false →
      renacaFill none "" = (none : Option String)) :=
  C4_normalize_idem_naca
    { type := some "wing", span := .num 10, sweep := .num 0, rootChord := .num 2,
      tipChord := .num 1 }
    ""
    { type := some "wing", span := .num 10, length := .undef, diameter := .undef,
      chord := .undef, sweep := .num 0, rootChord := .num 2, tipChord := .num 1,
      naca := none }
    [] rfl

/-- C4, counterexample to the claim as frozen: a wing record whose NACA
code is cleaned to `null` on the first run, while the description text
contains "naca 2412".  The second run returns a *different* record (it
back-fills `naca` from the text), so normalize∘normalize ≠ normalize. -/
theorem C4_claim_counterexample :
    validateParams
      { type := some "wing", span := .num 10, rootChord := .num 2,
        tipChord := .num 1, sweep := .num 0, naca := some "xx" }
      "naca 2412" =
      .ok
        ({ type := some "wing", span := .num 10, length := .undef, diameter := .undef,
           chord := .undef, sweep := .num 0, rootChord := .num 2, tipChord := .num 1,
           naca := none }, []) ∧
    validateParams
      { type := some "wing", span := .num 10, length := .undef,
        diameter := .undef, chord := .undef, sweep := .num 0, rootChord := .num 2,
        tipChord := .num 1, naca := none }
      "naca 2412" =
      .ok
        ({ type := some "wing", span := .num 10, length := .undef, diameter := .undef,
           chord := .undef, sweep := .num 0, rootChord := .num 2, tipChord := .num 1,
           naca := some "2412" }, []) ∧
    ({ type := some "wing", span := .num 10, length := .undef, diameter := .undef,
       chord := .undef, sweep := .num 0, rootChord := .num 2, tipChord := .num 1,
       naca := some "2412" } : JRecord) ≠
    { type := some "wing", span := .num 10, length := .undef, diameter := .undef,
      chord := .undef, sweep := .num 0, rootChord := .num 2, tipChord := .num 1,
      naca := none } := by
  refine ⟨rfl, rfl, ?_⟩
  intro hcontra
  have hn := congrArg JRecord.naca hcontra
  simp at hn

/-- Claim C1 (corrected): for a wing record whose sweep is a number
outside `[0, 60]`, `validateParams` clamps it to the nearest bound via
`Math.max(0, Math.min(60, sweep))` but emits *no* warning for the
clamp: the only sweep-related warning string is pushed exclusively when
the sweep is not a number.  (The claim as frozen — exactly one warning
naming the original and clamped values — is refuted by
`C1_claim_counterexample`.) -/
theorem C1_sweep_clamp_silent (raw : JRecord) (text t : String) (s : ℚ)
    (hty : raw.type = some t) (hne : t ≠ "")
    (hw : strContains (jsLower t) "wing" = true)
    (hs : raw.sweep = .num s) (hout : s < 0 ∨ 60 < s) :
    ∃ p w, validateParams raw text = .ok (p, w) ∧
      p.sweep = .num (max 0 (min 60 s)) ∧ msgSweepNaN ∉ w := by
  unfold validateParams
  have hres : resolveType raw.type text = some (t, []) := by
    rw [hty]
    unfold resolveType
    dsimp only
    rw [if_neg hne]
  rw [hres]
  dsimp only
  rw [if_pos hw]
  have hp0 := wingBranch_sweep_num (parseSizeFromText (jsLower text))
    (coerceKeys
      { raw with
          type := some (jsLower t),
          naca := if (nacaFalsy raw.naca && (nacaCodeFromText text).isSome) = true
                  then nacaCodeFromText text else raw.naca })
    s (by show coerceOne raw.sweep = JVal.num s; rw [hs]; rfl)
  refine ⟨_, _, rfl, hp0.1, ?_⟩
  simpa using hp0.2

/-- C1, witness: the corrected clamp theorem at `sweepDeg = 75`, which
clamps to `60` with no sweep warning. -/
theorem C1_sweep_clamp_silent_witness :
    ∃ p w, validateParams
        { type := some "wing", span := .num 10, rootChord := .num 2,
          tipChord := .num 1, sweep := .num 75 }
        "" = .ok (p, w) ∧
      p.sweep = .num (max 0 (min 60 75)) ∧ msgSweepNaN ∉ w :=
  C1_sweep_clamp_silent
    { type := some "wing", span := .num 10, rootChord := .num 2,
      tipChord := .num 1, sweep := .num 75 }
    "" "wing" 75 rfl (by decide) rfl rfl (Or.inr (by norm_num))

/-- C1, counterexample to the claim as frozen: `sweepDeg = 75` on a wing
is clamped to `60` with an *empty* warning list — not one warning naming
75 and 60. -/
theorem C1_claim_counterexample :
    validateParams
      { type := some "wing", span := .num 10, rootChord := .num 2,
        tipChord := .num 1, sweep := .num 75 }
      "" =
      .ok
        ({ type := some "wing", span := .num 10, length := .undef, diameter := .undef,
           chord := .undef, sweep := .num 60, rootChord := .num 2, tipChord := .num 1,
           naca := none }, []) := rfl

theorem missingOrNonpos_coerceOne (v : JVal) :
    missingOrNonpos (coerceOne v) = missingOrNonpos v := by
  cases v <;> rfl

theorem stabBranch_span_pos (size : Option ℚ) (p : JRecord) (s : ℚ)
    (hs : p.span = .num s) (h0 : 0 < s) :
    ((stabBranch size p).1).span = .num s := by
  unfold stabBranch
  dsimp only
  rw [stabStep1_pos size p s hs h0]
  rw [stabStep2_fix p s hs h0]
  obtain ⟨sw3, h3⟩ := stabStep3_char p
  rw [h3]
  exact hs

theorem stabBranch_span_fill (size : Option ℚ) (p : JRecord) (v : ℚ)
    (hmiss : missingOrNonpos p.span = true) (hsz : size = some v) (h0 : 0 < v) :
    ((stabBranch size p).1).span = .num v ∧
    msgMapStabSpan ∈ (stabBranch size p).2 := by
  subst hsz
  unfold stabBranch
  dsimp only
  have h1 : stabStep1 (some v) p = ({ p with span := .num v }, [msgMapStabSpan]) := by
    unfold stabStep1
    dsimp only
    rw [hmiss]
    simp [h0]
  rw [h1]
  rw [stabStep2_fix ({ p with span := .num v } : JRecord) v rfl h0]
  obtain ⟨sw3, h3⟩ := stabStep3_char ({ p with span := .num v } : JRecord)
  rw [h3]
  exact ⟨rfl, by simp⟩

/-- Claim C2 (corrected): the size extracted from the source text
(`parseSizeFromText`, which recognizes only the units
m/meter/meters/ft/feet/foot — not mm, cm or in) is used to fill the
primary dimension (wing span, fuselage length, stabilizer span) only
when that dimension is absent or non-positive; a present positive
dimension is never overridden by the text (the wing span is still
subject to the 100 m clamp).  (The frozen claim's mm/cm/in support is
refuted by `C2_claim_counterexample`.) -/
theorem C2_size_fill_m_ft (raw : JRecord) (text t : String) :
    (∀ s : ℚ, raw.type = some t → t ≠ "" → strContains (jsLower t) "wing" = true →
       raw.span = .num s → 0 < s →
       ∃ p w, validateParams raw text = .ok (p, w) ∧
         p.span = .num (if 100 < s then 100 else s)) ∧
    (∀ v : ℚ, raw.type = some t → t ≠ "" → strContains (jsLower t) "wing" = true →
       missingOrNonpos raw.span = true → parseSizeFromText (jsLower text) = some v →
       0 < v →
       ∃ p w, validateParams raw text = .ok (p, w) ∧
         p.span = .num (if 100 < v then 100 else v) ∧ msgMapWingSpan ∈ w) ∧
    (∀ l : ℚ, raw.type = some t → t ≠ "" → strContains (jsLower t) "wing" = false →
       strContains (jsLower t) "fuselage" = true → raw.length = .num l → 0 < l →
       ∃ p w, validateParams raw text = .ok (p, w) ∧ p.length = .num l) ∧
    (∀ v : ℚ, raw.type = some t → t ≠ "" → strContains (jsLower t) "wing" = false →
       strContains (jsLower t) "fuselage" = true →
       missingOrNonpos raw.length = true → parseSizeFromText (jsLower text) = some v →
       0 < v →
       ∃ p w, validateParams raw text = .ok (p, w) ∧
         p.length = .num v ∧ msgMapFusLength ∈ w) ∧
    (∀ s : ℚ, raw.type = some t → t ≠ "" → strContains (jsLower t) "wing" = false →
       strContains (jsLower t) "fuselage" = false → raw.span = .num s → 0 < s →
       ∃ p w, validateParams raw text = .ok (p, w) ∧ p.span = .num s) ∧
    (∀ v : ℚ, raw.type = some t → t ≠ "" → strContains (jsLower t) "wing" = false →
       strContains (jsLower t) "fuselage" = false →
       missingOrNonpos raw.span = true → parseSizeFromText (jsLower text) = some v →
       0 < v →
       ∃ p w, validateParams raw text = .ok (p, w) ∧
         p.span = .num v ∧ msgMapStabSpan ∈ w) := by
  refine ⟨?_, ?_, ?_, ?_, ?_, ?_⟩
  · intro s hty hne hw hs h0
    unfold validateParams
    have hres : resolveType raw.type text = some (t, []) := by
      rw [hty]
      unfold resolveType
      dsimp only
      rw [if_neg hne]
    rw [hres]
    dsimp only
    rw [if_pos hw]
    refine ⟨_, _, rfl, ?_⟩
    exact wingBranch_span_pos _ _ s (by show coerceOne raw.span = JVal.num s; rw [hs]; rfl) h0
  · intro v hty hne hw hmiss hsz h0
    unfold validateParams
    have hres : resolveType raw.type text = some (t, []) := by
      rw [hty]
      unfold resolveType
      dsimp only
      rw [if_neg hne]
    rw [hres]
    dsimp only
    rw [if_pos hw]
    have hfill := wingBranch_span_fill (parseSizeFromText (jsLower text))
      (coerceKeys
        { raw with
            type := some (jsLower t),
            naca := if (nacaFalsy raw.naca && (nacaCodeFromText text).isSome) = true
                    then nacaCodeFromText text else raw.naca })
      v
      (by show missingOrNonpos (coerceOne raw.span) = true
          rw [missingOrNonpos_coerceOne]
          exact hmiss)
      hsz h0
    refine ⟨_, _, rfl, hfill.1, ?_⟩
    simpa using hfill.2
  · intro l hty hne hw hf hl h0
    unfold validateParams
    have hres : resolveType raw.type text = some (t, []) := by
      rw [hty]
      unfold resolveType
      dsimp only
      rw [if_neg hne]
    rw [hres]
    dsimp only
    rw [if_neg (by simp [hw]), if_pos hf]
    refine ⟨_, _, rfl, ?_⟩
    exact fusBranch_length_pos _ _ l (by show coerceOne raw.length = JVal.num l; rw [hl]; rfl) h0
  · intro v hty hne hw hf hmiss hsz h0
    unfold validateParams
    have hres : resolveType raw.type text = some (t, []) := by
      rw [hty]
      unfold resolveType
      dsimp only
      rw [if_neg hne]
    rw [hres]
    dsimp only
    rw [if_neg (by simp [hw]), if_pos hf]
    have hfill := fusBranch_length_fill (parseSizeFromText (jsLower text))
      (coerceKeys
        { raw with
            type := some (jsLower t),
            naca := if (nacaFalsy raw.naca && (nacaCodeFromText text).isSome) = true
                    then nacaCodeFromText text else raw.naca })
      v
      (by show missingOrNonpos (coerceOne raw.length) = true
          rw [missingOrNonpos_coerceOne]
          exact hmiss)
      hsz h0
    refine ⟨_, _, rfl, hfill.1, ?_⟩
    simpa using hfill.2
  · intro s hty hne hw hf hs h0
    unfold validateParams
    have hres : resolveType raw.type text = some (t, []) := by
      rw [hty]
      unfold resolveType
      dsimp only
      rw [if_neg hne]
    rw [hres]
    dsimp only
    rw [if_neg (by simp [hw]), if_neg (by simp [hf])]
    refine ⟨_, _, rfl, ?_⟩
    exact stabBranch_span_pos _ _ s (by show coerceOne raw.span = JVal.num s; rw [hs]; rfl) h0
  · intro v hty hne hw hf hmiss hsz h0
    unfold validateParams
    have hres : resolveType raw.type text = some (t, []) := by
      rw [hty]
      unfold resolveType
      dsimp only
      rw [if_neg hne]
    rw [hres]
    dsimp only
    rw [if_neg (by simp [hw]), if_neg (by simp [hf])]
    have hfill := stabBranch_span_fill (parseSizeFromText (jsLower text))
      (coerceKeys
        { raw with
            type := some (jsLower t),
            naca := if (nacaFalsy raw.naca && (nacaCodeFromText text).isSome) = true
                    then nacaCodeFromText text else raw.naca })
      v
      (by show missingOrNonpos (coerceOne raw.span) = true
          rw [missingOrNonpos_coerceOne]
          exact hmiss)
      hsz h0
    refine ⟨_, _, rfl, hfill.1, ?_⟩
    simpa using hfill.2

/-- C2, witness: the corrected size-fill theorem at two concrete inputs —
a fuselage with `length = null` and the text "a 12 m fuselage" gets
`length = 12`, and a stabilizer ("tail") with `span = null` and the text
"a 2 m tail" gets `span = 2`, each with its mapping warning. -/
theorem C2_size_fill_m_ft_witness :
    (∃ p w, validateParams
        { type := some "fuselage", length := .null, diameter := .num 2 }
        "a 12 m fuselage" = .ok (p, w) ∧
      p.length = .num 12 ∧ msgMapFusLength ∈ w) ∧
    (∃ p w, validateParams
        { type := some "tail", span := .null }
        "a 2 m tail" = .ok (p, w) ∧
      p.span = .num 2 ∧ msgMapStabSpan ∈ w) := by
  have hsz : parseSizeFromText (jsLower "a 12 m fuselage") = some 12 := by
    show some (digitsVal ['1', '2'] * 1) = some (12 : ℚ)
    have h2 : digitsVal ['1', '2'] = 12 := by
      show ((0 * 10 + ((1 : ℕ) : ℚ)) * 10 + ((2 : ℕ) : ℚ)) = 12
      norm_num
    rw [h2]
    norm_num
  have hsz2 : parseSizeFromText (jsLower "a 2 m tail") = some 2 := by
    show some (digitsVal ['2'] * 1) = some (2 : ℚ)
    have h2 : digitsVal ['2'] = 2 := by
      show (0 * 10 + ((2 : ℕ) : ℚ)) = 2
      norm_num
    rw [h2]
    norm_num
  refine ⟨?_, ?_⟩
  · exact (C2_size_fill_m_ft
      { type := some "fuselage", length := .null, diameter := .num 2 }
      "a 12 m fuselage" "fuselage").2.2.2.1 12 rfl (by decide) rfl rfl rfl hsz (by norm_num)
  · exact (C2_size_fill_m_ft
      { type := some "tail", span := .null }
      "a 2 m tail" "tail").2.2.2.2.2 2 rfl (by decide) rfl rfl rfl hsz2 (by norm_num)

/-- C2, counterexample to the claim as frozen: the unit "mm" is *not*
recognized by the local `parseSizeFromText` of `validateParams` (only
m/meter(s) and ft/feet/foot are), so "a 5000 mm fuselage" does not fill
`length = 5`; the length falls back to the default `8`. -/
theorem C2_claim_counterexample :
    parseSizeFromText "a 5000 mm fuselage" = none ∧
    validateParams
      { type := some "fuselage", length := .null, diameter := .num 2 }
      "a 5000 mm fuselage" =
      .ok
        ({ type := some "fuselage", span := .undef, length := .num 8, diameter := .num 2,
           chord := .undef, sweep := .undef, rootChord := .undef, tipChord := .undef,
           naca := none }, [msgDefFusLength]) := ⟨rfl, rfl⟩

theorem resolveType_none_iff (t : Option String) (ui : String) :
    resolveType t ui = none ↔
      ((t = none ∨ t = some "") ∧ guessPartTypeFromText ui = none) := by
  cases t with
  | none => simp [resolveType, Option.map_eq_none']
  | some s =>
    by_cases hs : s = ""
    · subst hs
      simp [resolveType, Option.map_eq_none']
    · simp [resolveType, hs]

theorem validateParams_ok_shape (raw : JRecord) (text : String) (t0 : String)
    (w0 : List String) (h : resolveType raw.type text = some (t0, w0)) :
    ∃ p w, validateParams raw text = .ok (p, w) := by
  unfold validateParams
  rw [h]
  exact ⟨_, _, rfl⟩

/-- Claim C6 (corrected): `validateParams` fails — always with the
`MissingType` message — iff the raw `type` is absent (or not a string,
or the empty string) *and* the text contains no keyword of the three
families; the families are scanned wing → fuselage → stabilizer with
the first match winning.  The frozen claim's "no recognized kind
string" is refuted by `C6_claim_counterexample`: any non-empty type
string, e.g. "banana", is accepted verbatim and normalized by the
fallback (stabilizer) branch. -/
theorem C6_missing_type_iff (raw : JRecord) (text : String) :
    ((∃ e, validateParams raw text = .error e) ↔
      ((raw.type = none ∨ raw.type = some "") ∧ guessPartTypeFromText text = none)) ∧
    (∀ e, validateParams raw text = .error e → e = msgMissingType) ∧
    ((strContains (jsLower text) "wing" || strContains (jsLower text) "airfoil" ||
      strContains (jsLower text) "delta" || strContains (jsLower text) "swept") = true →
      guessPartTypeFromText text = some "wing") ∧
    ((strContains (jsLower text) "wing" || strContains (jsLower text) "airfoil" ||
      strContains (jsLower text) "delta" || strContains (jsLower text) "swept") = false →
     (strContains (jsLower text) "fuselage" || strContains (jsLower text) "body" ||
      strContains (jsLower text) "tube") = true →
      guessPartTypeFromText text = some "fuselage") ∧
    ((strContains (jsLower text) "wing" || strContains (jsLower text) "airfoil" ||
      strContains (jsLower text) "delta" || strContains (jsLower text) "swept") = false →
     (strContains (jsLower text) "fuselage" || strContains (jsLower text) "body" ||
      strContains (jsLower text) "tube") = false →
     (strContains (jsLower text) "stabilizer" || strContains (jsLower text) "tail" ||
      strContains (jsLower text) "fin" || strContains (jsLower text) "rudder") = true →
      guessPartTypeFromText text = some "stabilizer") := by
  refine ⟨⟨?_, ?_⟩, ?_, ?_, ?_, ?_⟩
  · intro ⟨e, he⟩
    rw [← resolveType_none_iff raw.type text]
    cases hres : resolveType raw.type text with
    | none => rfl
    | some tw =>
      obtain ⟨p, w, hok⟩ := validateParams_ok_shape raw text tw.1 tw.2 (by rw [hres])
      rw [hok] at he
      exact absurd he (by simp)
  · intro hcond
    have hnone : resolveType raw.type text = none :=
      (resolveType_none_iff raw.type text).mpr hcond
    refine ⟨msgMissingType, ?_⟩
    unfold validateParams
    rw [hnone]
  · intro e he
    unfold validateParams at he
    cases hres : resolveType raw.type text with
    | none =>
      rw [hres] at he
      simpa using he.symm
    | some tw =>
      rw [hres] at he
      dsimp only at he
      exact absurd he (by simp)
  · intro hcond
    unfold guessPartTypeFromText
    rw [if_pos hcond]
  · intro hno hcond
    unfold guessPartTypeFromText
    rw [if_neg (by simp [hno]), if_pos hcond]
  · intro hno1 hno2 hcond
    unfold guessPartTypeFromText
    rw [if_neg (by simp [hno1]), if_neg (by simp [hno2]), if_pos hcond]

/-- C6, witness: the corrected iff applied at a concrete record with no
type and no keyword in the text — the call fails with `MissingType` —
and the priority facts at a text containing both "tail" and "tube"
(fuselage wins over stabilizer). -/
theorem C6_missing_type_iff_witness :
    (∃ e, validateParams { span := .num 3 } "a quadcopter frame" = .error e) ∧
    guessPartTypeFromText "a TUBE with a tail" = some "fuselage" := by
  refine ⟨(C6_missing_type_iff { span := .num 3 } "a quadcopter frame").1.mpr
    ⟨Or.inl rfl, rfl⟩, ?_⟩
  exact (C6_missing_type_iff { span := .num 3 } "a TUBE with a tail").2.2.2.1
    rfl rfl

/-- C6, counterexample to the claim as frozen: the record
`{type: "banana"}` has no recognized kind string and the text "hello"
contains no family keyword, yet `validateParams` *succeeds* (the
unrecognized non-empty string is kept and routed to the fallback
stabilizer branch) instead of failing with `MissingType`. -/
theorem C6_claim_counterexample :
    validateParams { type := some "banana" } "hello" =
      .ok
        ({ type := some "banana", span := .num 4, length := .undef, diameter := .undef,
           chord := .undef, sweep := .num 0, rootChord := .undef, tipChord := .undef,
           naca := none }, [msgDefStabSpan]) ∧
    guessPartTypeFromText "hello" = none ∧
    ("banana" : String) ≠ "wing" ∧ ("banana" : String) ≠ "fuselage" ∧
    ("banana" : String) ≠ "stabilizer" := by
  exact ⟨rfl, rfl, by decide, by decide, by decide⟩

/-- Claim C10: a `null`/`undefined` parameter record, or a record with
no `type` field, makes `runSafetyChecks` return the clean-pass verdict
(both lists empty) instead of failing or reporting findings. -/
theorem C10_safety_null_clean :
    runSafetyChecks none = ([], []) ∧
    (∀ p : JRecord, p.type = none → runSafetyChecks (some p) = ([], [])) := by
  refine ⟨rfl, ?_⟩
  intro p hp
  unfold runSafetyChecks
  dsimp only
  rw [hp]

/-- C10, witness: the clean-pass behaviour at a concrete type-less
record whose span would otherwise be critical. -/
theorem C10_safety_null_clean_witness :
    runSafetyChecks (some { span := .num 90 }) = ([], []) :=
  C10_safety_null_clean.2 { span := .num 90 } rfl

/-- Claim C9: a parameter record whose kind string contains none of
"wing", "fuselage", "stabilizer" (after lowercasing; a missing or empty
type becomes "unknown") does not fail at mesh building — it produces
the fixed default box primitive with dimensions 3×1×6. -/
theorem C9_unknown_kind_box (p : JRecord)
    (h1 : strContains (jsLower (partTypeOf p)) "wing" = false)
    (h2 : strContains (jsLower (partTypeOf p)) "fuselage" = false)
    (h3 : strContains (jsLower (partTypeOf p)) "stabilizer" = false) :
    generateGeometry p = .box 3 1 6 := by
  unfold generateGeometry
  dsimp only
  rw [if_neg (by simp [h1]), if_neg (by simp [h2]), if_neg (by simp [h3])]

/-- C9, witness: the default-box fallback at the concrete kind
"banana". -/
theorem C9_unknown_kind_box_witness :
    generateGeometry { type := some "banana", span := .num 4 } = .box 3 1 6 :=
  C9_unknown_kind_box { type := some "banana", span := .num 4 } rfl rfl rfl

/-- Claim C7: the safety checker is a pure function of the parameter
record (a Lean function by construction here): every wing record with
span > 80 gets a span violation in the critical list; every wing record
with positive root and tip chords and taper `tipChord/rootChord`
above 1.0 (resp. below 0.2) gets the corresponding taper finding in the
warning list; and a wing record inside all envelopes yields the clean
pass `([], [])`. -/
theorem C7_safety_checker (p : JRecord) (t : String) (hty : p.type = some t)
    (hw : strContains (jsLower t) "wing" = true) :
    (∀ s : ℚ, p.span = .num s → 80 < s →
       Finding.spanOverMax ∈ (runSafetyChecks (some p)).1) ∧
    (∀ r c : ℚ, p.rootChord = .num r → p.tipChord = .num c → 0 < r → 0 < c →
       (1 < c / r → Finding.taperInverse (.fin (c / r)) ∈ (runSafetyChecks (some p)).2) ∧
       (c / r < 0.2 → Finding.taperExtreme (.fin (c / r)) ∈ (runSafetyChecks (some p)).2)) ∧
    (∀ s r c w : ℚ, p.span = .num s → p.rootChord = .num r → p.tipChord = .num c →
       p.sweep = .num w → 2 ≤ s → s ≤ 80 → 0.5 ≤ r → r ≤ 15 → 0 < c → w ≤ 50 →
       3 ≤ s * s / (s * (r + c) / 2) → s * s / (s * (r + c) / 2) ≤ 15 →
       0.2 ≤ c / r → c / r ≤ 1 →
       runSafetyChecks (some p) = ([], [])) := by
  have hne : ¬(t = "") := by
    intro hcontra
    subst hcontra
    exact absurd hw (by decide)
  have hbody : runSafetyChecks (some p) = runSafetyChecks (some p) := rfl
  refine ⟨?_, ?_, ?_⟩
  · intro s hs h80
    unfold runSafetyChecks
    dsimp only
    rw [hty]
    dsimp only
    rw [if_neg hne, if_pos hw]
    dsimp only
    have hc : jsGtQ p.span 80 = true := by
      rw [hs]
      simp [jsGtQ, JVal.toJNum, JNum.gtb]
      exact h80
    rw [hc]
    simp
  · intro r c hr hc h0r h0c
    have htr : jsTruthy p.rootChord = true := by
      rw [hr]
      simp [jsTruthy]
      exact ne_of_gt h0r
    have htc : jsTruthy p.tipChord = true := by
      rw [hc]
      simp [jsTruthy]
      exact ne_of_gt h0c
    have hlam : JNum.div (JVal.toJNum p.tipChord) (JVal.toJNum p.rootChord) =
        .fin (c / r) := by
      rw [hr, hc]
      simp [JVal.toJNum, JNum.div, ne_of_gt h0r]
    constructor
    · intro hgt
      unfold runSafetyChecks
      dsimp only
      rw [hty]
      dsimp only
      rw [if_neg hne, if_pos hw]
      dsimp only
      rw [htr, htc]
      rw [hlam]
      have hcnd : JNum.gtb (.fin (c / r)) (.fin 1) = true := by
        simp [JNum.gtb]
        exact hgt
      rw [hcnd]
      simp
    · intro hlt
      unfold runSafetyChecks
      dsimp only
      rw [hty]
      dsimp only
      rw [if_neg hne, if_pos hw]
      dsimp only
      rw [htr, htc]
      rw [hlam]
      have hcnd : JNum.ltb (.fin (c / r)) (.fin 0.2) = true := by
        simp [JNum.ltb, JNum.gtb]
        exact hlt
      rw [hcnd]
      simp
  · intro s r c w hs hr hc hsw h2 h80 hr05 hr15 h0c hw50 har3 har15 hl02 hl1
    have h0s : 0 < s := by linarith
    have h0r : 0 < r := by linarith
    have harea : 0 < s * (r + c) / 2 := by positivity
    unfold runSafetyChecks
    dsimp only
    rw [hty]
    dsimp only
    rw [if_neg hne, if_pos hw]
    rw [hs, hr, hc, hsw]
    have e1 : jsGtQ (JVal.num s) 80 = false := by
      simp [jsGtQ, JVal.toJNum, JNum.gtb]
      linarith
    have e2 : jsLtQ (JVal.num s) 2 = false := by
      simp [jsLtQ, JNum.ltb, jsGtQ, JVal.toJNum, JNum.gtb]
      linarith
    have e3 : jsLtQ (JVal.num r) 0.5 = false := by
      simp [jsLtQ, JNum.ltb, jsGtQ, JVal.toJNum, JNum.gtb]
      linarith
    have e4 : jsGtQ (JVal.num w) 60 = false := by
      simp [jsGtQ, JVal.toJNum, JNum.gtb]
      linarith
    have e5 : jsGtQ (JVal.num r) 15 = false := by
      simp [jsGtQ, JVal.toJNum, JNum.gtb]
      linarith
    have e6 : jsGtQ (JVal.num w) 50 = false := by
      simp [jsGtQ, JVal.toJNum, JNum.gtb]
      linarith
    have htr : jsTruthy (JVal.num r) = true := by
      simp [jsTruthy]
      exact ne_of_gt h0r
    have htc : jsTruthy (JVal.num c) = true := by
      simp [jsTruthy]
      exact ne_of_gt h0c
    have harea2 : JNum.div (JNum.mul (JVal.toJNum (.num s))
        (JNum.add (JVal.toJNum (.num r)) (JVal.toJNum (.num c)))) (.fin 2) =
        .fin (s * (r + c) / 2) := by
      simp [JVal.toJNum, JNum.mul, JNum.add, JNum.div]
    have har : JNum.div (JNum.mul (JVal.toJNum (.num s)) (JVal.toJNum (.num s)))
        (.fin (s * (r + c) / 2)) = .fin (s * s / (s * (r + c) / 2)) := by
      simp [JVal.toJNum, JNum.mul, JNum.div, ne_of_gt harea]
    have e7 : JNum.gtb (.fin (s * s / (s * (r + c) / 2))) (.fin 15) = false := by
      simp [JNum.gtb]
      linarith
    have e8 : JNum.ltb (.fin (s * s / (s * (r + c) / 2))) (.fin 3) = false := by
      simp [JNum.ltb, JNum.gtb]
      linarith
    have hlam : JNum.div (JVal.toJNum (.num c)) (JVal.toJNum (.num r)) =
        .fin (c / r) := by
      simp [JVal.toJNum, JNum.div, ne_of_gt h0r]
    have e9 : JNum.ltb (.fin (c / r)) (.fin 0.2) = false := by
      simp [JNum.ltb, JNum.gtb]
      linarith
    have e10 : JNum.gtb (.fin (c / r)) (.fin 1) = false := by
      simp [JNum.gtb]
      linarith
    rw [e1, e2, e3, e4, e5, htr, htc]
    rw [harea2, har, hlam, e7, e8, e9, e10]
    simp [e6]

/-- C7, witness: the three parts at concrete records — span 90 gives the
span violation, tip chord 2.2 over root chord 2 gives the inverse-taper
warning (λ = 1.1), and a nominal wing (30/4/2, sweep 10°, AR = 10,
λ = 0.5) passes clean. -/
theorem C7_safety_checker_witness :
    Finding.spanOverMax ∈
      (runSafetyChecks (some
        { type := some "wing", span := .num 90, rootChord := .num 2,
          tipChord := .num 1, sweep := .num 10 })).1 ∧
    Finding.taperInverse (.fin ((22 / 10 : ℚ) / 2)) ∈
      (runSafetyChecks (some
        { type := some "wing", span := .num 30, rootChord := .num 2,
          tipChord := .num (22 / 10), sweep := .num 10 })).2 ∧
    runSafetyChecks (some
      { type := some "wing", span := .num 30, rootChord := .num 4,
        tipChord := .num 2, sweep := .num 10 }) = ([], []) := by
  refine ⟨?_, ?_, ?_⟩
  · exact (C7_safety_checker
      { type := some "wing", span := .num 90, rootChord := .num 2,
        tipChord := .num 1, sweep := .num 10 } "wing" rfl rfl).1 90 rfl (by norm_num)
  · exact ((C7_safety_checker
      { type := some "wing", span := .num 30, rootChord := .num 2,
        tipChord := .num (22 / 10), sweep := .num 10 } "wing" rfl rfl).2.1
      2 (22 / 10) rfl rfl (by norm_num) (by norm_num)).1 (by norm_num)
  · exact (C7_safety_checker
      { type := some "wing", span := .num 30, rootChord := .num 4,
        tipChord := .num 2, sweep := .num 10 } "wing" rfl rfl).2.2
      30 4 2 10 rfl rfl rfl rfl (by norm_num) (by norm_num) (by norm_num)
      (by norm_num) (by norm_num) (by norm_num) (by norm_num) (by norm_num)
      (by norm_num) (by norm_num)

/-- Claim C8: the aerodynamic metrics are invertible — computing
`S = b(cr+ct)/2`, `AR = b²/S`, `λ = ct/cr` and applying the edit
formulas `span = √(AR·S)`, `tipChord = cr·λ`,
`rootChord = (2S/b)/(1+λ)` reproduces `b`, `ct`, `cr` exactly (over the
reals; the 3-decimal `fix` display rounding is UI formatting outside
the computation). -/
theorem C8_aero_invertible (b cr ct : ℝ) (hb : 0 < b) (hcr : 0 < cr) (hct : 0 < ct) :
    editSpanFromAR (aeroMetrics b cr ct).1 (aeroMetrics b cr ct).2.2 = b ∧
    editTipFromLambda cr (aeroMetrics b cr ct).2.1 = ct ∧
    editRootFromArea (aeroMetrics b cr ct).2.2 b (aeroMetrics b cr ct).2.1 = cr := by
  unfold aeroMetrics editSpanFromAR editTipFromLambda editRootFromArea
  dsimp only
  have hS : (0 : ℝ) < b * (cr + ct) / 2 := by positivity
  have hb0 : b ≠ 0 := ne_of_gt hb
  have hcr0 : cr ≠ 0 := ne_of_gt hcr
  have hlam : (0 : ℝ) < 1 + ct / cr := by positivity
  refine ⟨?_, ?_, ?_⟩
  · have harg : b * b / (b * (cr + ct) / 2) * (b * (cr + ct) / 2) = b * b := by
      field_simp
    rw [harg]
    exact Real.sqrt_mul_self hb.le
  · field_simp
  · rw [div_eq_iff (ne_of_gt hlam)]
    field_simp

/-- C8, witness: the invertibility theorem at `b = 10`, `cr = 2`,
`ct = 1`. -/
theorem C8_aero_invertible_witness :
    editSpanFromAR (aeroMetrics 10 2 1).1 (aeroMetrics 10 2 1).2.2 = 10 ∧
    editTipFromLambda 2 (aeroMetrics 10 2 1).2.1 = 1 ∧
    editRootFromArea (aeroMetrics 10 2 1).2.2 10 (aeroMetrics 10 2 1).2.1 = 2 :=
  C8_aero_invertible 10 2 1 (by norm_num) (by norm_num) (by norm_num)

/-- Claim C5 (corrected): the per-vertex taper+sweep shear of
`createWing` computes `x' = x·c + xLE`, `y' = y·c`, `z' = z` with
`u = (z+b/2)/b`, `xLE = (z+b/2)·tan(sweep·π/180)` and local chord
`c = safeCr + (safeCt − safeCr)·u`, where `safeCr = max(rootChord,1e-4)`
and `safeCt = max(tipChord,1e-4)`; this agrees with the claim's formula
(`c` interpolating the raw chords) exactly when both chords are at
least `1e-4`.  (The raw-chord formula of the frozen claim is refuted at
`rootChord = 5·10⁻⁵` by `C5_claim_counterexample`.) -/
theorem C5_wing_shear_formula (b cr ct sweepD : ℝ) (v : ℝ × ℝ × ℝ)
    (hcr : tinyChord ≤ cr) (hct : tinyChord ≤ ct) :
    wingShear b cr ct sweepD v = wingShearClaimed b cr ct sweepD v ∧
    (wingShear b cr ct sweepD v).2.2 = v.2.2 := by
  unfold wingShear wingShearClaimed
  dsimp only
  rw [max_eq_left hcr, max_eq_left hct]
  exact ⟨rfl, rfl⟩

/-- C5, witness: the shear agreement at a concrete vertex of a wing
with `b = 10`, `cr = 2`, `ct = 1`, sweep 30°. -/
theorem C5_wing_shear_formula_witness :
    wingShear 10 2 1 30 (0.3, 0.1, 2) = wingShearClaimed 10 2 1 30 (0.3, 0.1, 2) ∧
    (wingShear 10 2 1 30 (0.3, 0.1, 2)).2.2 = (0.3, 0.1, (2 : ℝ)).2.2 :=
  C5_wing_shear_formula 10 2 1 30 (0.3, 0.1, 2)
    (by norm_num [tinyChord]) (by norm_num [tinyChord])

/-- C5, counterexample to the claim as frozen: at
`rootChord = 5·10⁻⁵ < 1e-4` (which passes validation, being positive)
the code's `1e-4` chord floor makes the sheared x differ from the
claim's exact formula (`1·10⁻⁴` versus `5·10⁻⁵` at the root station). -/
theorem C5_claim_counterexample :
    wingShear 10 5e-5 1 0 (1, 1, -5) ≠ wingShearClaimed 10 5e-5 1 0 (1, 1, -5) := by
  intro hcontra
  have h1 := congrArg Prod.fst hcontra
  unfold wingShear wingShearClaimed at h1
  dsimp only at h1
  rw [show ((0 : ℝ) * Real.pi / 180) = 0 by ring, Real.tan_zero] at h1
  norm_num [tinyChord, max_def] at h1

theorem nacaYt_one (t : ℝ) : nacaYt t 1 = 0 := by
  unfold nacaYt
  rw [Real.sqrt_one]
  ring

theorem nacaStation_last (N : ℕ) (h : 1 ≤ N) : nacaStation N N = 1 := by
  unfold nacaStation
  have hN : (N : ℝ) ≠ 0 := Nat.cast_ne_zero.mpr (by omega)
  rw [show Real.pi * (N : ℝ) / (N : ℝ) = Real.pi by field_simp]
  rw [Real.cos_pi]
  norm_num

theorem nacaXU_last (s : String) (chord : ℝ) (N : ℕ) (h : 1 ≤ N) :
    nacaXU s chord (nacaStation N N) = chord := by
  rw [nacaStation_last N h]
  unfold nacaXU
  rw [nacaYt_one]
  ring

/-- Claim C3 (corrected): for every valid 4-digit code, chord and
sample count `N ≥ 1`, the profile's leading-edge upper and lower
ordinates are both exactly 0 (the points coincide), the trailing-edge
upper and lower ordinates differ by exactly `2ε`, and the trailing-edge
*upper* point `(chord, +ε)` appears in the assembled polyline — but the
polyline has exactly `2N` points (upper stations `0..N`, lower stations
`N-1..1`), so the trailing-edge *lower* point is computed yet never
appended.  (The frozen claim's "both appear" is refuted by
`C3_claim_counterexample`.) -/
theorem C3_naca_profile (s : String) (chord : ℝ) (N : ℕ)
    (hv : isValidNaca4 s = true) (hN : 1 ≤ N) :
    nacaYU s chord N 0 = 0 ∧ nacaYL s chord N 0 = 0 ∧
    nacaYU s chord N N - nacaYL s chord N N = 2 * nacaEps ∧
    (nacaXU s chord (nacaStation N N), nacaYU s chord N N) ∈ makeNaca4Shape s chord N ∧
    nacaXU s chord (nacaStation N N) = chord ∧ nacaYU s chord N N = nacaEps ∧
    (makeNaca4Shape s chord N).length = 2 * N := by
  have hN0 : ¬(0 = N) := by omega
  have hyu0 : nacaYU s chord N 0 = 0 := by
    unfold nacaYU
    rw [if_neg hN0, if_pos rfl]
  have hyl0 : nacaYL s chord N 0 = 0 := by
    unfold nacaYL
    rw [if_neg hN0, if_pos rfl]
  have hyuN : nacaYU s chord N N = nacaEps := by
    unfold nacaYU
    rw [if_pos rfl]
  have hylN : nacaYL s chord N N = -nacaEps := by
    unfold nacaYL
    rw [if_pos rfl]
  have hmem : (nacaXU s chord (nacaStation N N), nacaYU s chord N N) ∈
      nacaPtsRaw s chord N := by
    unfold nacaPtsRaw
    apply List.mem_append_left
    exact List.mem_map.mpr ⟨N, List.mem_range.mpr (by omega), rfl⟩
  have hlen : (nacaPtsRaw s chord N).length = 2 * N := by
    unfold nacaPtsRaw
    simp [List.length_append, List.length_map, List.length_range, List.length_range']
    omega
  refine ⟨hyu0, hyl0, by rw [hyuN, hylN]; ring, ?_, nacaXU_last s chord N hN, hyuN, ?_⟩
  · unfold makeNaca4Shape
    dsimp only
    split_ifs with hcw
    · exact hmem
    · exact List.mem_reverse.mpr hmem
  · unfold makeNaca4Shape
    dsimp only
    split_ifs with hcw
    · exact hlen
    · rw [List.length_reverse]
      exact hlen

/-- C3, witness: the corrected profile theorem at the default code
"0012", unit chord, and `N = 2`. -/
theorem C3_naca_profile_witness :
    nacaYU "0012" 1 2 0 = 0 ∧ nacaYL "0012" 1 2 0 = 0 ∧
    nacaYU "0012" 1 2 2 - nacaYL "0012" 1 2 2 = 2 * nacaEps ∧
    (nacaXU "0012" 1 (nacaStation 2 2), nacaYU "0012" 1 2 2) ∈ makeNaca4Shape "0012" 1 2 ∧
    nacaXU "0012" 1 (nacaStation 2 2) = 1 ∧ nacaYU "0012" 1 2 2 = nacaEps ∧
    (makeNaca4Shape "0012" 1 2).length = 2 * 2 :=
  C3_naca_profile "0012" 1 2 rfl (by norm_num)

theorem nacaCamber_zero (p x : ℝ) : nacaCamber 0 p x = (0, 0) := by
  unfold nacaCamber
  rw [if_neg (by simp)]

theorem nacaXU_m0 (s : String) (chord x : ℝ) (hm : nacaM s = 0) :
    nacaXU s chord x = x * chord := by
  unfold nacaXU
  rw [hm, nacaCamber_zero]
  dsimp only
  rw [Real.arctan_zero, Real.sin_zero]
  ring

theorem nacaXL_m0 (s : String) (chord x : ℝ) (hm : nacaM s = 0) :
    nacaXL s chord x = x * chord := by
  unfold nacaXL
  rw [hm, nacaCamber_zero]
  dsimp only
  rw [Real.arctan_zero, Real.sin_zero]
  ring

theorem nacaM_0012 : nacaM "0012" = 0 := by
  unfold nacaM
  rw [show nacaDigit "0012" 0 = 0 from rfl]
  norm_num

theorem nacaStation_two_zero : nacaStation 2 0 = 0 := by
  unfold nacaStation
  rw [show Real.pi * ((0 : ℕ) : ℝ) / ((2 : ℕ) : ℝ) = 0 by push_cast; ring]
  rw [Real.cos_zero]
  norm_num

theorem nacaStation_two_one : nacaStation 2 1 = 1 / 2 := by
  unfold nacaStation
  rw [show Real.pi * ((1 : ℕ) : ℝ) / ((2 : ℕ) : ℝ) = Real.pi / 2 by push_cast; ring]
  rw [Real.cos_pi_div_two]
  norm_num [max_def, min_def]

/-- C3, counterexample to the claim as frozen: for the code "0012"
(unit chord, `N = 2`) the trailing-edge *lower* point `(1, -ε)` — which
the claim says appears in the polyline — is not a member of
`makeNaca4Shape "0012" 1 2`: the loop assembly walks the lower surface
only from index `N-1` down to `1`. -/
theorem C3_claim_counterexample :
    ((1 : ℝ), -nacaEps) ∉ makeNaca4Shape "0012" 1 2 := by
  intro hmem
  have hmem' : ((1 : ℝ), -nacaEps) ∈ nacaPtsRaw "0012" 1 2 := by
    unfold makeNaca4Shape at hmem
    dsimp only at hmem
    split_ifs at hmem with hcw
    · exact hmem
    · exact List.mem_reverse.mp hmem
  unfold nacaPtsRaw at hmem'
  rw [show List.range 3 = [0, 1, 2] from rfl,
      show (List.range' 1 (2 - 1)).reverse = [1] from rfl] at hmem'
  simp only [List.map_cons, List.map_nil, List.cons_append, List.nil_append,
    List.mem_cons, List.not_mem_nil, or_false] at hmem'
  have hXU : ∀ x : ℝ, nacaXU "0012" 1 x = x := fun x => by
    rw [nacaXU_m0 "0012" 1 x nacaM_0012]
    ring
  have hXL : ∀ x : ℝ, nacaXL "0012" 1 x = x := fun x => by
    rw [nacaXL_m0 "0012" 1 x nacaM_0012]
    ring
  rcases hmem' with h | h | h | h
  · have h1 := congrArg Prod.fst h
    dsimp only at h1
    rw [hXU, nacaStation_two_zero] at h1
    norm_num at h1
  · have h1 := congrArg Prod.fst h
    dsimp only at h1
    rw [hXU, nacaStation_two_one] at h1
    norm_num at h1
  · have h2 := congrArg Prod.snd h
    dsimp only at h2
    rw [show nacaYU "0012" 1 2 2 = nacaEps from by unfold nacaYU; rw [if_pos rfl]] at h2
    rw [nacaEps] at h2
    norm_num at h2
  · have h1 := congrArg Prod.fst h
    dsimp only at h1
    rw [hXL, nacaStation_two_one] at h1
    norm_num at h1
